import Mathlib

/-!
Verification development for the freight-pricing decision engine.

The Python sources are shallowly embedded: floats are modelled as exact
rationals, Python's `round` (banker's rounding, ties to even) as `rhe`,
`round_to_nearest_5` as `round5`, `round(x, 2)` as `round2`, `np.median`
as `npMedian` (mean of the two middle elements for even length), and
fallible values as `Option`.
-/

namespace PricingAgent

/-- Computable floor of a rational (`q.num / q.den` with integer division). -/
def floorQ (q : ℚ) : ℤ := q.num / (q.den : ℤ)

theorem floorQ_eq (q : ℚ) : floorQ q = ⌊q⌋ := Rat.floor_def.symm

/-- Banker's rounding (Python `round` on a one-argument call): nearest
integer, ties go to the even neighbour. -/
def rhe (q : ℚ) : ℤ :=
  if q - floorQ q < 1/2 then floorQ q
  else if 1/2 < q - floorQ q then floorQ q + 1
  else if floorQ q % 2 = 0 then floorQ q else floorQ q + 1

/-- Embedding of `round_to_nearest_5` from `modules/utils/helpers.py`:
`round(value / 5) * 5`. -/
def round5 (q : ℚ) : ℚ := (rhe (q / 5) : ℚ) * 5

/-- Embedding of Python `round(x, 2)` (used for currency amounts). -/
def round2 (q : ℚ) : ℚ := (rhe (q * 100) : ℚ) / 100

/-- A rational is an exact multiple of 5. -/
def multOf5 (q : ℚ) : Prop := ∃ k : ℤ, q = 5 * k

theorem rhe_ge (q : ℚ) : q - 1/2 ≤ (rhe q : ℚ) := by
  unfold rhe
  rw [floorQ_eq]
  have hf : (⌊q⌋ : ℚ) ≤ q := Int.floor_le q
  have hf1 : q < (⌊q⌋ : ℚ) + 1 := Int.lt_floor_add_one q
  split
  · linarith
  · split
    · push_cast
      linarith
    · split
      · linarith
      · push_cast
        linarith

theorem rhe_le (q : ℚ) : (rhe q : ℚ) ≤ q + 1/2 := by
  unfold rhe
  rw [floorQ_eq]
  have hf : (⌊q⌋ : ℚ) ≤ q := Int.floor_le q
  have hf1 : q < (⌊q⌋ : ℚ) + 1 := Int.lt_floor_add_one q
  split
  · linarith
  · next h =>
    split
    · next h2 =>
      push_cast
      linarith
    · next h2 =>
      have : q - (⌊q⌋ : ℚ) = 1/2 := le_antisymm (not_lt.mp h2) (not_lt.mp h)
      split
      · linarith
      · push_cast
        linarith

/-- If `rhe q` lands exactly half a unit away from `q` (a tie), the chosen
integer is even. -/
theorem rhe_tie_even (q : ℚ) (h : (rhe q : ℚ) = q - 1/2 ∨ (rhe q : ℚ) = q + 1/2) :
    rhe q % 2 = 0 := by
  unfold rhe at h ⊢
  rw [floorQ_eq] at h ⊢
  have hf : (⌊q⌋ : ℚ) ≤ q := Int.floor_le q
  have hf1 : q < (⌊q⌋ : ℚ) + 1 := Int.lt_floor_add_one q
  by_cases h1 : q - (⌊q⌋ : ℚ) < 1/2
  · rw [if_pos h1] at h ⊢
    exfalso
    rcases h with h | h
    · have h2 : q - (⌊q⌋ : ℚ) = 1/2 := by linarith
      rw [h2] at h1
      norm_num at h1
    · linarith
  · by_cases h2 : 1/2 < q - (⌊q⌋ : ℚ)
    · rw [if_neg h1, if_pos h2] at h ⊢
      exfalso
      rcases h with h | h
      · push_cast at h
        linarith
      · push_cast at h
        have h3 : q - (⌊q⌋ : ℚ) = 1/2 := by linarith
        linarith
    · rw [if_neg h1, if_neg h2] at h ⊢
      by_cases h3 : ⌊q⌋ % 2 = 0
      · rw [if_pos h3]
        exact h3
      · rw [if_neg h3]
        omega

/-- For an even integer gap `n`, banker's rounding cannot shrink a gap of at
least `n` below `n`: the two boundary ties would both round to even
integers, making the difference even, while `n - 1` is odd. -/
theorem rhe_sub_ge (n : ℤ) (hn : n % 2 = 0) (a b : ℚ) (h : (n : ℚ) ≤ a - b) :
    n ≤ rhe a - rhe b := by
  have ha := rhe_ge a
  have hb := rhe_le b
  have hbase : (n : ℚ) - 1 ≤ (rhe a : ℚ) - (rhe b : ℚ) := by linarith
  by_contra hcon
  push_neg at hcon
  have heq : rhe a - rhe b = n - 1 := by
    have h1 : (n : ℤ) - 1 ≤ rhe a - rhe b := by exact_mod_cast hbase
    omega
  -- equality forces both roundings to be exact ties and a - b = n
  have heqq : (rhe a : ℚ) - (rhe b : ℚ) = (n : ℚ) - 1 := by exact_mod_cast heq
  have hta : (rhe a : ℚ) = a - 1/2 := by linarith
  have htb : (rhe b : ℚ) = b + 1/2 := by linarith
  have hea : rhe a % 2 = 0 := rhe_tie_even a (Or.inl hta)
  have heb : rhe b % 2 = 0 := rhe_tie_even b (Or.inr htb)
  omega

theorem round5_multOf5 (q : ℚ) : multOf5 (round5 q) := by
  exact ⟨rhe (q / 5), by unfold round5; ring⟩

theorem round5_ge (q : ℚ) : q - 5/2 ≤ round5 q := by
  have := rhe_ge (q / 5)
  unfold round5
  nlinarith

theorem round5_le (q : ℚ) : round5 q ≤ q + 5/2 := by
  have := rhe_le (q / 5)
  unfold round5
  nlinarith

/-- Rounding both ends to the nearest 5 preserves a gap of at least 100. -/
theorem round5_sub_ge_100 (t m : ℚ) (h : 100 ≤ m - t) :
    100 ≤ round5 m - round5 t := by
  have h20 : (20 : ℤ) ≤ rhe (m / 5) - rhe (t / 5) := by
    apply rhe_sub_ge 20 (by norm_num)
    push_cast
    linarith
  unfold round5
  have h20q : (20 : ℚ) ≤ (rhe (m / 5) : ℚ) - (rhe (t / 5) : ℚ) := by exact_mod_cast h20
  nlinarith

theorem multOf5_sub (a b : ℚ) (ha : multOf5 a) (hb : multOf5 b) : multOf5 (a - b) := by
  obtain ⟨x, hx⟩ := ha
  obtain ⟨y, hy⟩ := hb
  exact ⟨x - y, by rw [hx, hy]; push_cast; ring⟩

/-- A multiple of 5 strictly above `5n` is at least `5(n+1)`. -/
theorem multOf5_step (q : ℚ) (n : ℤ) (hm : multOf5 q) (h : 5 * (n : ℚ) < q) :
    5 * ((n : ℚ) + 1) ≤ q := by
  obtain ⟨k, hk⟩ := hm
  subst hk
  have hnk : n < k := by
    by_contra hc
    push_neg at hc
    have hkn : (k : ℚ) ≤ (n : ℚ) := by exact_mod_cast hc
    linarith
  have hk1 : (n : ℚ) + 1 ≤ (k : ℚ) := by exact_mod_cast hnk
  linarith

theorem multOf5_nonneg_of_gt (q : ℚ) (hm : multOf5 q) (h : -5/2 < q) : 0 ≤ q := by
  have := multOf5_step q (-1) hm (by push_cast; linarith)
  push_cast at this
  linarith

example : rhe (11/2) = 6 := by norm_num [rhe, floorQ]
example : rhe (9/2) = 4 := by norm_num [rhe, floorQ]
example : round5 (287.5 : ℚ) = 290 := by norm_num [round5, rhe, floorQ]
example : round5 (22 : ℚ) = 20 := by norm_num [round5, rhe, floorQ]

/-! ## List and median helpers (`np.median` and friends) -/

/-- Insert into a sorted list of rationals. -/
def insertSorted (x : ℚ) : List ℚ → List ℚ
  | [] => [x]
  | y :: ys => if x ≤ y then x :: y :: ys else y :: insertSorted x ys

/-- Insertion sort for rationals (the sort underlying the median). -/
def sortRats : List ℚ → List ℚ
  | [] => []
  | x :: xs => insertSorted x (sortRats xs)

/-- Embedding of `np.median` on a nonempty list: middle element of the
sorted list, or the mean of the two middle elements for even length.
Returns 0 on the empty list; every call site guards against that case. -/
def npMedian (l : List ℚ) : ℚ :=
  let s := sortRats l
  let n := s.length
  if n % 2 = 1 then s.getD (n / 2) 0
  else (s.getD (n / 2 - 1) 0 + s.getD (n / 2) 0) / 2

/-- Median guarded by emptiness, as in `np.median(xs) if xs else None`. -/
def medianOpt (l : List ℚ) : Option ℚ :=
  if l = [] then none else some (npMedian l)

/-- A Python truthiness check on an optional float used as a dict entry:
`if d.get(k):` passes only for a present, nonzero value. -/
def truthyRate : Option ℚ → List ℚ
  | some v => if v = 0 then [] else [v]
  | none => []

/-- Truthiness collapse for an optional float: `None` and `0` are falsy. -/
def truthyOpt : Option ℚ → Option ℚ
  | some v => if v = 0 then none else some v
  | none => none

example : npMedian [3, 1, 2] = 2 := by norm_num [npMedian, sortRats, insertSorted]
example : npMedian [4, 1, 3, 2] = 5/2 := by norm_num [npMedian, sortRats, insertSorted]

/-! ## String helpers (`modules/utils/helpers.py` and name normalization) -/

/-- Prefix test on character lists. -/
def startsWithChars : List Char → List Char → Bool
  | [], _ => true
  | _ :: _, [] => false
  | a :: as, b :: bs => a = b && startsWithChars as bs

/-- Substring test on character lists (Python `in` on strings). -/
def containsChars (needle : List Char) : List Char → Bool
  | [] => needle.isEmpty
  | b :: bs => startsWithChars needle (b :: bs) || containsChars needle bs

/-- Drop whitespace from both ends (Python `str.strip`). -/
def trimChars (l : List Char) : List Char :=
  ((l.dropWhile Char.isWhitespace).reverse.dropWhile Char.isWhitespace).reverse

/-- Embedding of `normalize_text`: strip then uppercase, as a char list. -/
def normalizeTextChars (s : String) : List Char :=
  trimChars (s.toList.map Char.toUpper)

/-- Embedding of `contains_word` from `modules/utils/helpers.py`. -/
def contains_word (text word : String) : Bool :=
  if text.isEmpty || word.isEmpty then false
  else containsChars (normalizeTextChars word) (normalizeTextChars text)

/-- Split a char list into space-separated words. -/
def splitSpaces (l : List Char) : List (List Char) :=
  l.foldr
    (fun c acc =>
      if c = ' ' then [] :: acc
      else
        match acc with
        | [] => [[c]]
        | w :: ws => (c :: w) :: ws)
    [[]]

/-- Join words with single spaces. -/
def joinWords : List (List Char) → List Char
  | [] => []
  | [w] => w
  | w :: ws => w ++ ' ' :: joinWords ws

/-- Embedding of the customer-name normalizer used by the PRC module:
lowercase, drop punctuation (keep word characters), collapse whitespace
runs to single spaces and strip the ends. -/
def normalize_name (s : String) : String :=
  let kept := s.toList.map Char.toLower |>.filterMap fun c =>
    if c.isAlphanum || c = '_' then some c
    else if c.isWhitespace then some ' '
    else none
  String.mk (joinWords ((splitSpaces kept).filter (· ≠ [])))

example : normalize_name "  Acme,  Inc." = "acme inc" := by decide
example : contains_word "Big Fabuwood Co" "fabuwood" = true := by decide

/-! ## Shared market-data model (DAT / GreenScreens / internal history) -/

/-- Fields read from `dat_data["rates_mci"]`. -/
structure RatesMci where
  total_forecastUSD : Option ℚ
  total_mae_highUSD : Option ℚ
  total_mae_lowUSD : Option ℚ
  companies : Option ℚ
  mileage : Option ℚ
deriving Repr, DecidableEq

/-- Fields read from `dat_data["forecast"]` (the 8-day forecast). -/
structure DatForecast where
  total_forecastUSD : Option ℚ
  total_mae_highUSD : Option ℚ
  total_mae_lowUSD : Option ℚ
deriving Repr, DecidableEq

/-- The DAT payload as consumed by the calculators. -/
structure DatData where
  rates_mci : Option RatesMci
  forecast : Option DatForecast
deriving Repr, DecidableEq

/-- Fields read from `greenscreens_data["RateForecast"]`. -/
structure RateForecast where
  total_targetBuyRate : Option ℚ
  total_highBuyRate : Option ℚ
  total_lowBuyRate : Option ℚ
  confidenceLevel : Option ℚ
deriving Repr, DecidableEq

/-- The GreenScreens payload as consumed by the calculators. -/
structure GsData where
  rateForecast : Option RateForecast
deriving Repr, DecidableEq

/-- Fields of the internal-data analysis result consumed by the
negotiation and multistop calculators. -/
structure InternalData where
  histConfidence : ℚ
  recordsLane : ℕ
  recordsZip3 : ℕ
  laneMedianRate : Option ℚ
  bestCarrierAverageRate : Option ℚ
  customerMedianPrice : Option ℚ
  customerAveragePrice : Option ℚ
  historicalMarkup : Option ℚ
  historicalMarginPct : Option ℚ
deriving Repr, DecidableEq

/-- Rates gathered from `rates_mci` (spot quote and its bounds). -/
def mciRates (m : RatesMci) : List ℚ :=
  truthyRate m.total_forecastUSD ++ truthyRate m.total_mae_highUSD ++
    truthyRate m.total_mae_lowUSD

/-- Rates gathered from the DAT 8-day forecast. -/
def forecastRates (f : DatForecast) : List ℚ :=
  truthyRate f.total_forecastUSD ++ truthyRate f.total_mae_highUSD ++
    truthyRate f.total_mae_lowUSD

/-- All DAT rates collected by the single-stop calculator. -/
def datRates : Option DatData → List ℚ
  | none => []
  | some d =>
    (match d.rates_mci with
     | some m => mciRates m
     | none => []) ++
    (match d.forecast with
     | some f => forecastRates f
     | none => [])

/-- All GreenScreens rates collected by the calculators. -/
def gsRates : Option GsData → List ℚ
  | none => []
  | some g =>
    match g.rateForecast with
    | some rf =>
      truthyRate rf.total_targetBuyRate ++ truthyRate rf.total_highBuyRate ++
        truthyRate rf.total_lowBuyRate
    | none => []

/-! ## Hotshot handler (`modules/logic/hotshot.py`) -/

/-- HOTSHOT_CONFIG from `config.py`. -/
structure HotshotConfig where
  enabled : Bool
  weight_threshold : ℚ
  map_to_equipment : String

def HOTSHOT_CONFIG : HotshotConfig :=
  { enabled := true, weight_threshold := 10000, map_to_equipment := "FLATBED" }

/-- Equipment normalization inside `handle_hotshot`: uppercase, remove
spaces, strip. -/
def hotshotNormalizedChars (equipment : String) : List Char :=
  trimChars ((equipment.toList.map Char.toUpper).filter (fun c => c ≠ ' '))

/-- Embedding of `handle_hotshot`: returns
(api equipment, adjustment multiplier, is hotshot). -/
def handle_hotshot (equipment : String) (weight : ℚ) : String × ℚ × Bool :=
  if HOTSHOT_CONFIG.enabled = false ∨ weight ≤ 0 then (equipment, 1, false)
  else if containsChars "HOTSHOT".toList (hotshotNormalizedChars equipment) = false then
    (equipment, 1, false)
  else if HOTSHOT_CONFIG.weight_threshold ≤ weight then
    (HOTSHOT_CONFIG.map_to_equipment, 0.80, true)
  else (HOTSHOT_CONFIG.map_to_equipment, 0.65, true)

/-! ## Single-stop negotiation range (`modules/analysis/negotiation.py`) -/

/-- NEGOTIATION_CONFIG fields used by the calculator. -/
structure NegotiationConfig where
  transit_days_default : ℤ
  capacity_sensitivity : ℚ
  weekend_penalty : ℚ
  long_haul_threshold : ℚ
  short_haul_threshold : ℚ
  minimum_margin_buffer : ℚ

def NEGOTIATION_CONFIG : NegotiationConfig :=
  { transit_days_default := 2, capacity_sensitivity := 0.15, weekend_penalty := 50,
    long_haul_threshold := 700, short_haul_threshold := 200, minimum_margin_buffer := 100 }

/-- A datetime at day resolution: ordinal day plus the weekday Python
reports for it. Only these two projections of the dates are consumed. -/
structure PyDate where
  days : ℤ
  weekday : ℕ
deriving Repr, DecidableEq

/-- Internal confidence with the `internal_data.get(..., 0)` default. -/
def internalConf : Option InternalData → ℚ
  | some i => i.histConfidence
  | none => 0

/-- Combined Lane + ZIP3 record count. -/
def internalRecs : Option InternalData → ℕ
  | some i => i.recordsLane + i.recordsZip3
  | none => 0

/-- The lane median, provided it passes the truthiness-and-positivity check
`lane_median and lane_median > 0`. -/
def laneMedianPos : Option InternalData → Option ℚ
  | some i =>
    match i.laneMedianRate with
    | some v => if 0 < v then some v else none
    | none => none
  | none => none

/-- Market-trend cushion in the strong-historical branch. -/
def strongAdjustment (conf : ℚ) (recs : ℕ) (lm : ℚ) (apiMedian : Option ℚ) : ℚ :=
  if 90 ≤ conf ∧ 20 ≤ recs then 1
  else if 85 ≤ conf ∧ 15 ≤ recs then
    match truthyOpt apiMedian with
    | some am => if 0.20 < (am - lm) / lm then 1.05 else 1
    | none => 1
  else
    match truthyOpt apiMedian with
    | some am =>
      if 0.15 < (am - lm) / lm then 1.03
      else if 0.10 < (am - lm) / lm then 1.02
      else 1
    | none => 1

/-- Historical/market blend used by the good, moderate and acceptable
branches (falls back to the lane median if no market median is truthy). -/
def blendedBase (wHist : ℚ) (lm : ℚ) (apiMedian : Option ℚ) : ℚ :=
  match truthyOpt apiMedian with
  | some am => lm * wHist + am * (1 - wHist)
  | none => lm

/-- Buffer step: enforce the minimum spread before rounding. -/
def applyMinBuffer (buf t m : ℚ) : ℚ × ℚ :=
  if m - t < buf then (t, t + buf) else (t, m)

/-- The market-only branch of the single-stop calculator (weak or no
historical data). -/
def marketBranch (cfg : NegotiationConfig) (miles : ℚ) (transit_days : ℤ)
    (pickup_weekday : ℕ) (dat : Option DatData) (gs : Option GsData)
    (internal_confidence : ℚ) (api_rates : List ℚ) : ℚ × ℚ :=
  if api_rates = [] then
    (miles * 2.5, miles * 2.5 * 1.15)
  else
    let median_rate := npMedian api_rates
    let gs_confidence : ℚ :=
      match gs with
      | some g =>
        match g.rateForecast with
        | some rf => rf.confidenceLevel.getD 50
        | none => 50
      | none => 50
    let combined_confidence := (gs_confidence * 0.4 + internal_confidence * 0.6) / 100
    let adj : ℚ :=
      if cfg.long_haul_threshold < miles then 0.98
      else if miles < cfg.short_haul_threshold then 1.05
      else 1
    let t1 := median_rate * adj
    let m1 := median_rate * 1.10 * adj
    let tm2 : ℚ × ℚ :=
      if transit_days ≤ 1 then (t1 * 1.08, m1 * 1.10)
      else if 3 < transit_days then (t1 * 0.97, m1 * 0.95)
      else (t1, m1)
    let tm3 : ℚ × ℚ :=
      if pickup_weekday = 5 ∨ pickup_weekday = 6 then
        (tm2.1 + cfg.weekend_penalty, tm2.2 + cfg.weekend_penalty)
      else tm2
    let tm4 : ℚ × ℚ :=
      match dat with
      | some d =>
        match d.rates_mci with
        | some mci =>
          let companies := mci.companies.getD 0
          if companies < 5 then
            (tm3.1 * (1 + cfg.capacity_sensitivity), tm3.2 * (1 + cfg.capacity_sensitivity))
          else if 20 < companies then
            (tm3.1 * (1 - cfg.capacity_sensitivity * 0.5),
             tm3.2 * (1 - cfg.capacity_sensitivity * 0.5))
          else tm3
        | none => tm3
      | none => tm3
    let m5 : ℚ :=
      if combined_confidence < 0.5 then tm4.2 * 1.05
      else if 0.8 < combined_confidence then tm4.2 * 0.98
      else tm4.2
    applyMinBuffer cfg.minimum_margin_buffer tm4.1 m5

/-- Final rounding of the single-stop range: round both ends to the
nearest 5 and force a +50 spread if the rounded ceiling fell to or below
the rounded floor. -/
def negotiationFinalize (tm : ℚ × ℚ) : ℚ × ℚ :=
  let t := round5 tm.1
  let m := round5 tm.2
  if m ≤ t then (t, t + 50) else (t, m)

/-- Embedding of `calculate_negotiation_range`. The two optional dates are
day-resolution `PyDate`s and `nowWeekday` stands for
`datetime.now().weekday()` used when no pickup date is given. -/
def calculate_negotiation_range (cfg : NegotiationConfig) (miles : ℚ)
    (pickup delivery : Option PyDate) (nowWeekday : ℕ)
    (dat : Option DatData) (gs : Option GsData) (internal : Option InternalData) :
    ℚ × ℚ :=
  let transit_days : ℤ :=
    match pickup, delivery with
    | some p, some d => max 1 (d.days - p.days)
    | _, _ => cfg.transit_days_default
  let pickup_weekday : ℕ :=
    match pickup with
    | some p => p.weekday
    | none => nowWeekday
  let api_rates := datRates dat ++ gsRates gs
  let api_median := medianOpt api_rates
  let conf := internalConf internal
  let recs := internalRecs internal
  negotiationFinalize
    (match laneMedianPos internal with
     | some lm =>
       if 80 ≤ conf ∧ 8 ≤ recs then
         let a := strongAdjustment conf recs lm api_median
         (lm * a, lm * a * 1.05)
       else if 60 ≤ conf ∧ 3 ≤ recs then
         let b := blendedBase 0.7 lm api_median
         (b * 0.97, b * 1.08)
       else if 50 ≤ conf ∧ conf < 60 ∧ 2 ≤ recs then
         let b := blendedBase 0.6 lm api_median
         (b * 0.96, b * 1.09)
       else if 40 ≤ conf ∧ conf < 50 ∧ 1 ≤ recs then
         let b := blendedBase 0.5 lm api_median
         (b * 0.95, b * 1.10)
       else marketBranch cfg miles transit_days pickup_weekday dat gs conf api_rates
     | none => marketBranch cfg miles transit_days pickup_weekday dat gs conf api_rates)

/-- Whether the calculator falls through to the market-only regime
(no historical tier matched). -/
def usesMarketRegime (internal : Option InternalData) : Bool :=
  match laneMedianPos internal with
  | none => true
  | some _ =>
    let conf := internalConf internal
    let recs := internalRecs internal
    !(decide (80 ≤ conf) && decide (8 ≤ recs)) &&
    !(decide (60 ≤ conf) && decide (3 ≤ recs)) &&
    !(decide (50 ≤ conf) && decide (conf < 60) && decide (2 ≤ recs)) &&
    !(decide (40 ≤ conf) && decide (conf < 50) && decide (1 ≤ recs))

/-- Evaluation lemma: on empty market and internal data the calculator uses
the miles fallback of the market branch. -/
theorem calc_neg_range_fallback_100 :
    calculate_negotiation_range NEGOTIATION_CONFIG 100 none none 0 none none none =
      (250, 290) := by
  have h2 : calculate_negotiation_range NEGOTIATION_CONFIG 100 none none 0 none none none =
      negotiationFinalize (marketBranch NEGOTIATION_CONFIG 100 2 0 none none 0 []) := by
    unfold calculate_negotiation_range
    simp only [laneMedianPos, internalConf, internalRecs, datRates, gsRates, medianOpt,
      List.append_nil, NEGOTIATION_CONFIG]
  have h1 : marketBranch NEGOTIATION_CONFIG 100 2 0 none none 0 [] = (250, 287.5) := by
    norm_num [marketBranch, applyMinBuffer]
  have h3 : negotiationFinalize (250, 287.5) = (250, 290) := by
    norm_num [negotiationFinalize, round5, rhe, floorQ]
  rw [h2, h1, h3]

/-- The final rounding step always yields two multiples of 5 with a strict
spread. -/
theorem negotiationFinalize_invariant (tm : ℚ × ℚ) :
    multOf5 (negotiationFinalize tm).1 ∧ multOf5 (negotiationFinalize tm).2 ∧
      (negotiationFinalize tm).1 < (negotiationFinalize tm).2 := by
  unfold negotiationFinalize
  have ht := round5_multOf5 tm.1
  have hm := round5_multOf5 tm.2
  simp only []
  split
  · refine ⟨ht, ?_, by norm_num⟩
    obtain ⟨k, hk⟩ := ht
    exact ⟨k + 10, by rw [hk]; push_cast; ring⟩
  · next h => exact ⟨ht, hm, lt_of_not_le h⟩

/-- Every single-stop result is two multiples of 5 with max strictly above
target. -/
theorem calc_neg_range_invariant (cfg : NegotiationConfig) (miles : ℚ)
    (pickup delivery : Option PyDate) (nowWeekday : ℕ) (dat : Option DatData)
    (gs : Option GsData) (internal : Option InternalData) :
    multOf5 (calculate_negotiation_range cfg miles pickup delivery nowWeekday dat gs internal).1 ∧
    multOf5 (calculate_negotiation_range cfg miles pickup delivery nowWeekday dat gs internal).2 ∧
    (calculate_negotiation_range cfg miles pickup delivery nowWeekday dat gs internal).1 <
      (calculate_negotiation_range cfg miles pickup delivery nowWeekday dat gs internal).2 := by
  unfold calculate_negotiation_range
  exact negotiationFinalize_invariant _

/-- The buffer step guarantees the configured spread. -/
theorem applyMinBuffer_gap (buf t m : ℚ) :
    buf ≤ (applyMinBuffer buf t m).2 - (applyMinBuffer buf t m).1 := by
  unfold applyMinBuffer
  split
  · simp
  · next h => simpa using le_of_not_lt h

/-- The market branch with at least one market rate ends in the buffer
step, so its raw spread is at least the configured minimum. -/
theorem marketBranch_gap (cfg : NegotiationConfig) (miles : ℚ) (transit_days : ℤ)
    (pickup_weekday : ℕ) (dat : Option DatData) (gs : Option GsData)
    (internal_confidence : ℚ) (api_rates : List ℚ) (h : api_rates ≠ []) :
    cfg.minimum_margin_buffer ≤
      (marketBranch cfg miles transit_days pickup_weekday dat gs internal_confidence api_rates).2 -
      (marketBranch cfg miles transit_days pickup_weekday dat gs internal_confidence api_rates).1 := by
  unfold marketBranch
  rw [if_neg h]
  exact applyMinBuffer_gap _ _ _

/-- A raw spread of at least 100 survives the final rounding step. -/
theorem negotiationFinalize_gap100 (tm : ℚ × ℚ) (h : 100 ≤ tm.2 - tm.1) :
    100 ≤ (negotiationFinalize tm).2 - (negotiationFinalize tm).1 := by
  unfold negotiationFinalize
  have h2 : 100 ≤ round5 tm.2 - round5 tm.1 := round5_sub_ge_100 tm.1 tm.2 h
  rw [if_neg (by linarith)]
  exact h2

/-- C5: with lane confidence 85, combined record count 16, lane median
2000 and market pool median 2100 (5 percent trend), the strong-historical
branch applies its 85-confidence/15-record band, the trend of 5 percent is
within the 20 percent tolerance so the adjustment is 1.0, and the result
is target 2000 and max buy 2100, both multiples of 5. -/
theorem C5_scenarioB (cfg : NegotiationConfig) (miles : ℚ)
    (pickup delivery : Option PyDate) (nowWeekday : ℕ) (dat : Option DatData)
    (gs : Option GsData) (i : InternalData)
    (hconf : i.histConfidence = 85) (hrecs : i.recordsLane + i.recordsZip3 = 16)
    (hlm : i.laneMedianRate = some 2000)
    (hapi : medianOpt (datRates dat ++ gsRates gs) = some 2100) :
    calculate_negotiation_range cfg miles pickup delivery nowWeekday dat gs (some i) =
      (2000, 2100) := by
  unfold calculate_negotiation_range
  simp only []
  rw [hapi]
  simp only [laneMedianPos, internalConf, internalRecs, hconf, hrecs, hlm]
  rw [if_pos (by norm_num)]
  dsimp only
  rw [if_pos (by norm_num : (80:ℚ) ≤ 85 ∧ 8 ≤ 16)]
  have hadj : strongAdjustment 85 16 2000 (some 2100) = 1 := by
    unfold strongAdjustment
    rw [if_neg (by norm_num), if_pos (by norm_num : (85:ℚ) ≤ 85 ∧ 15 ≤ 16)]
    norm_num [truthyOpt]
  rw [hadj]
  have hfin : negotiationFinalize (2000 * 1, 2000 * 1 * 1.05) = (2000, 2100) := by
    norm_num [negotiationFinalize, round5, rhe, floorQ]
  rw [hfin]

/-! ## Multistop cost model (`modules/logic/multistop.py`) -/

/-- MULTISTOP_CONFIG fields used by the calculator. -/
structure MultistopConfig where
  variable_stop_charge_fabuwood : ℚ
  layover_rate : ℚ
  layover_rate_fabuwood : ℚ
  extra_stops_bonus_divisor : ℚ
  extra_stops_bonus_multiplier_fabuwood : ℚ
  markup : ℚ

def MULTISTOP_CONFIG : MultistopConfig :=
  { variable_stop_charge_fabuwood := 150, layover_rate := 200, layover_rate_fabuwood := 125,
    extra_stops_bonus_divisor := 4, extra_stops_bonus_multiplier_fabuwood := 100,
    markup := 0.02 }

/-- Outlier information returned alongside a multistop range. -/
structure OutlierInfo where
  detected : Bool
  lane_carrier_cost : ℚ
  market_median : ℚ
  deviation_pct : ℚ
  records : ℕ
  customer_median_price : Option ℚ
  customer_average_price : Option ℚ
  lane_markup : ℚ
  lane_margin_pct : ℚ
deriving Repr, DecidableEq

/-- Market rates pooled for multistop outlier detection (`rates_mci` plus
GreenScreens; the 8-day forecast is not consulted here). -/
def multistopMarketRates (dat : Option DatData) (gs : Option GsData) : List ℚ :=
  (match dat with
   | some d =>
     match d.rates_mci with
     | some m => mciRates m
     | none => []
   | none => []) ++ gsRates gs

/-- Outlier detection: with at least one lane record and a positive lane
median at least 30 percent below the positive market-quote median, build
the outlier info. -/
def detectOutlier (internal : Option InternalData) (dat : Option DatData)
    (gs : Option GsData) : Option OutlierInfo :=
  match internal with
  | none => none
  | some i =>
    match i.laneMedianRate with
    | none => none
    | some lm =>
      if 0 < lm ∧ 1 ≤ i.recordsLane then
        let mkt := multistopMarketRates dat gs
        if mkt = [] then none
        else
          match medianOpt (mkt.filter fun r => decide (0 < r)) with
          | none => none
          | some mm =>
            if 0 < mm then
              if 0.30 ≤ (mm - lm) / mm then
                some
                  { detected := true, lane_carrier_cost := lm, market_median := mm,
                    deviation_pct := (mm - lm) / mm * 100, records := i.recordsLane,
                    customer_median_price := i.customerMedianPrice,
                    customer_average_price := i.customerAveragePrice,
                    lane_markup := i.historicalMarkup.getD 1.20,
                    lane_margin_pct := i.historicalMarginPct.getD 15.0 }
              else none
            else none
      else none

/-- Layover charge: only for routes implying more than 1.5 days of driving
at 500 miles/day, one charge per additional whole day. -/
def layoverCharge (google_miles per_day : ℚ) : ℚ :=
  let days := google_miles / 500
  if 1.5 < days then ((⌊days⌋ : ℚ) - 1) * per_day else 0

/-- Per-extra-stop charge of the historical regime, by customer segment and
mileage-deviation band. -/
def historicalStopCharge (is_fab : Bool) (miles_diff_pct : ℚ) : ℚ :=
  if is_fab then
    if miles_diff_pct < 20 then 150 else if miles_diff_pct < 40 then 200 else 250
  else
    if miles_diff_pct < 20 then 50 else if miles_diff_pct < 40 then 75 else 100

/-- Per-stop variable charge of the market regime. -/
def marketVariableStops (is_fab : Bool) (miles_diff_pct : ℚ) : ℚ :=
  if is_fab then MULTISTOP_CONFIG.variable_stop_charge_fabuwood
  else if miles_diff_pct < 20 then 75 * 0.67
  else if miles_diff_pct < 40 then 75
  else 75 * 1.33

/-- Extra-stops bonus of the market regime (Fabuwood only, above 4 stops). -/
def marketIncreasePerStop (is_fab : Bool) (stops_count : ℤ) : ℚ :=
  if is_fab ∧ 4 < stops_count then
    round2 ((stops_count : ℚ) / MULTISTOP_CONFIG.extra_stops_bonus_divisor *
      MULTISTOP_CONFIG.extra_stops_bonus_multiplier_fabuwood)
  else 0

/-- Final guard of the multistop calculator: non-positive ends yield the
null triple; a collapsed spread bumps the ceiling to 110 percent of the
floor, rounded to the nearest 5. -/
def multistopFinalize (tm : ℚ × ℚ) (info : Option OutlierInfo) :
    Option ℚ × Option ℚ × Option OutlierInfo :=
  if tm.1 ≤ 0 ∨ tm.2 ≤ 0 then (none, none, none)
  else if tm.2 ≤ tm.1 then (some tm.1, some (round5 (tm.1 * 1.1)), info)
  else (some tm.1, some tm.2, info)

/-- The DAT average used by the multistop guard
(`rates_mci.total_forecastUSD`). -/
def datAverage (dat : Option DatData) : Option ℚ :=
  match dat with
  | some d =>
    match d.rates_mci with
    | some m => m.total_forecastUSD
    | none => none
  | none => none

/-- Embedding of `calculate_multistop_negotiation_range`. Returns
(target rate, max buy, outlier info); the null triple signals an
unpriceable load. -/
def calculate_multistop_negotiation_range (google_miles dat_miles : ℚ)
    (stops_count : ℤ) (customer_name : String) (dat : Option DatData)
    (hotshot_adjustment : ℚ) (internal : Option InternalData) (gs : Option GsData) :
    Option ℚ × Option ℚ × Option OutlierInfo :=
  let is_fab := contains_word customer_name "fabuwood"
  let lane_median : Option ℚ :=
    match internal with
    | some i => i.laneMedianRate
    | none => none
  let lane_confidence : ℚ :=
    match internal with
    | some i => i.histConfidence
    | none => 0
  let records : ℕ :=
    match internal with
    | some i => i.recordsLane
    | none => 0
  let has_lane_data : Bool :=
    match lane_median with
    | some lm => decide (0 < lm) && decide (40 ≤ lane_confidence) && decide (3 ≤ records)
    | none => false
  let outlier_info := detectOutlier internal dat gs
  match datAverage dat with
  | none => (none, none, none)
  | some da =>
    if da ≤ 0 then (none, none, none)
    else if dat_miles ≤ 0 ∨ google_miles ≤ 0 then (none, none, none)
    else
      let miles_diff := google_miles - dat_miles
      let miles_diff_pct := if 0 < dat_miles then miles_diff / dat_miles * 100 else 0
      multistopFinalize
        (match outlier_info with
         | some _ =>
           let lm := lane_median.getD 0
           let total := round5 ((lm + (stops_count - 1) * 50) * hotshot_adjustment)
           (round5 (total * 0.95), round5 (total * 1.05))
         | none =>
           if has_lane_data then
             let lm := lane_median.getD 0
             let sc := historicalStopCharge is_fab miles_diff_pct
             let lay := layoverCharge google_miles
               (if is_fab then MULTISTOP_CONFIG.layover_rate_fabuwood
                else MULTISTOP_CONFIG.layover_rate)
             let total := round5 ((lm + (stops_count - 1) * sc + lay) * hotshot_adjustment)
             (round5 (total * 0.98), round5 (total * 1.03))
           else
             let vs := marketVariableStops is_fab miles_diff_pct
             let inc := marketIncreasePerStop is_fab stops_count
             let lay := layoverCharge google_miles
               (if is_fab then MULTISTOP_CONFIG.layover_rate_fabuwood
                else MULTISTOP_CONFIG.layover_rate)
             let stops_charge := (stops_count : ℚ) * vs
             let mileage := da / dat_miles * google_miles
             let total0 :=
               if 0 ≤ miles_diff then round5 (mileage + stops_charge + inc + lay)
               else round5 (da + stops_charge + inc + lay)
             let total := round5 (total0 * hotshot_adjustment)
             (total, round5 (total * (1 + MULTISTOP_CONFIG.markup))))
        outlier_info

/-- Rounding to two decimals moves a value by less than one cent. -/
theorem round2_ge (q : ℚ) : q - 1/200 ≤ round2 q := by
  have := rhe_ge (q * 100)
  unfold round2
  nlinarith

/-- A multiple of 5 below five halves is nonpositive. -/
theorem multOf5_nonpos_of_lt (d : ℚ) (hm : multOf5 d) (h : d < 5/2) : d ≤ 0 := by
  obtain ⟨k, hk⟩ := hm
  subst hk
  have hk0 : k ≤ 0 := by
    by_contra hc
    push_neg at hc
    have h1 : (1 : ℚ) ≤ (k : ℚ) := by exact_mod_cast hc
    linarith
  have : (k : ℚ) ≤ 0 := by exact_mod_cast hk0
  linarith

/-- Bumping a positive multiple of 5 by ten percent and rounding never goes
below the original value. -/
theorem le_round5_onepointone (t : ℚ) (hm : multOf5 t) (hp : 0 < t) :
    t ≤ round5 (t * 1.1) := by
  have hb := round5_ge (t * 1.1)
  have hm2 := round5_multOf5 (t * 1.1)
  have hd : multOf5 (t - round5 (t * 1.1)) := multOf5_sub _ _ hm hm2
  have hlt : t - round5 (t * 1.1) < 5/2 := by nlinarith
  have := multOf5_nonpos_of_lt _ hd hlt
  linarith

/-- Bumping a multiple of 5 that is at least 25 by ten percent and rounding
strictly increases it. -/
theorem lt_round5_onepointone (t : ℚ) (hm : multOf5 t) (h25 : 25 ≤ t) :
    t < round5 (t * 1.1) := by
  by_cases h : t = 25
  · subst h
    norm_num [round5, rhe, floorQ]
  · have h25s : (25 : ℚ) < t := lt_of_le_of_ne h25 (Ne.symm h)
    have h30 : 30 ≤ t := by
      have hstep := multOf5_step t 5 hm (by push_cast; linarith)
      push_cast at hstep
      linarith
    have hb := round5_ge (t * 1.1)
    nlinarith

/-- What the multistop final guard guarantees whenever it returns a
non-null pair built from two multiples of 5. -/
theorem multistopFinalize_spec (a b : ℚ) (info : Option OutlierInfo) (t m : ℚ)
    (oi : Option OutlierInfo) (h1 : multOf5 a) (h2 : multOf5 b)
    (heq : multistopFinalize (a, b) info = (some t, some m, oi)) :
    multOf5 t ∧ multOf5 m ∧ t ≤ m ∧ 0 < t ∧ t = a ∧ oi = info := by
  unfold multistopFinalize at heq
  split at heq
  · simp at heq
  · next hpos =>
    push_neg at hpos
    split at heq
    · next hcol =>
      simp only [Prod.mk.injEq, Option.some.injEq] at heq
      obtain ⟨ht, hm2, hoi⟩ := heq
      subst ht
      subst hm2
      subst hoi
      exact ⟨h1, round5_multOf5 _, le_round5_onepointone a h1 (by linarith [hpos.1]),
        by linarith [hpos.1], rfl, rfl⟩
    · next hncol =>
      simp only [Prod.mk.injEq, Option.some.injEq] at heq
      obtain ⟨ht, hm2, hoi⟩ := heq
      subst ht
      subst hm2
      subst hoi
      exact ⟨h1, h2, le_of_not_le hncol, by linarith [hpos.1], rfl, rfl⟩

/-- With a floor of at least 25 the final guard keeps the spread strict. -/
theorem multistopFinalize_strict (a b : ℚ) (info : Option OutlierInfo) (t m : ℚ)
    (oi : Option OutlierInfo) (h1 : multOf5 a) (h25 : 25 ≤ a)
    (heq : multistopFinalize (a, b) info = (some t, some m, oi)) : t < m := by
  unfold multistopFinalize at heq
  split at heq
  · simp at heq
  · split at heq
    · next hcol =>
      simp only [Prod.mk.injEq, Option.some.injEq] at heq
      obtain ⟨ht, hm2, hoi⟩ := heq
      subst ht
      subst hm2
      exact lt_round5_onepointone a h1 h25
    · next hncol =>
      simp only [Prod.mk.injEq, Option.some.injEq] at heq
      obtain ⟨ht, hm2, hoi⟩ := heq
      subst ht
      subst hm2
      exact lt_of_not_le hncol

/-- C7: a missing or non-positive DAT forecast total
(`rates_mci.total_forecastUSD`), or non-positive real or market-assumed
miles, makes the multistop calculator return the explicit null triple
rather than raising or returning a partial result. -/
theorem C7_null_guard (google_miles dat_miles : ℚ) (stops_count : ℤ)
    (customer_name : String) (dat : Option DatData) (hotshot_adjustment : ℚ)
    (internal : Option InternalData) (gs : Option GsData)
    (hbad : datAverage dat = none ∨ (∃ da, datAverage dat = some da ∧ da ≤ 0) ∨
      dat_miles ≤ 0 ∨ google_miles ≤ 0) :
    calculate_multistop_negotiation_range google_miles dat_miles stops_count
      customer_name dat hotshot_adjustment internal gs = (none, none, none) := by
  unfold calculate_multistop_negotiation_range
  simp only []
  rcases hbad with hnone | ⟨da, hda, hle⟩ | hdm | hgm
  · rw [hnone]
  · rw [hda]
    dsimp only
    rw [if_pos hle]
  · cases hda : datAverage dat with
    | none => rfl
    | some da =>
      dsimp only
      by_cases hle : da ≤ 0
      · rw [if_pos hle]
      · rw [if_neg hle, if_pos (Or.inl hdm)]
  · cases hda : datAverage dat with
    | none => rfl
    | some da =>
      dsimp only
      by_cases hle : da ≤ 0
      · rw [if_pos hle]
      · rw [if_neg hle, if_pos (Or.inr hgm)]

/-- Every non-null multistop pair consists of multiples of 5 with the
ceiling at least the floor (and a positive floor). -/
theorem calc_multistop_invariant (google_miles dat_miles : ℚ) (stops_count : ℤ)
    (customer_name : String) (dat : Option DatData) (hotshot_adjustment : ℚ)
    (internal : Option InternalData) (gs : Option GsData) (t m : ℚ)
    (oi : Option OutlierInfo)
    (heq : calculate_multistop_negotiation_range google_miles dat_miles stops_count
      customer_name dat hotshot_adjustment internal gs = (some t, some m, oi)) :
    multOf5 t ∧ multOf5 m ∧ t ≤ m ∧ 0 < t := by
  unfold calculate_multistop_negotiation_range at heq
  simp only [] at heq
  cases hda : datAverage dat with
  | none =>
    rw [hda] at heq
    simp at heq
  | some da =>
    rw [hda] at heq
    dsimp only at heq
    split at heq
    · simp at heq
    · split at heq
      · simp at heq
      · cases ho : detectOutlier internal dat gs with
        | some o =>
          rw [ho] at heq
          dsimp only at heq
          obtain ⟨h1, h2, h3, h4, _, _⟩ :=
            multistopFinalize_spec _ _ _ _ _ _ (round5_multOf5 _) (round5_multOf5 _) heq
          exact ⟨h1, h2, h3, h4⟩
        | none =>
          rw [ho] at heq
          dsimp only at heq
          split at heq
          · obtain ⟨h1, h2, h3, h4, _, _⟩ :=
              multistopFinalize_spec _ _ _ _ _ _ (round5_multOf5 _) (round5_multOf5 _) heq
            exact ⟨h1, h2, h3, h4⟩
          · obtain ⟨h1, h2, h3, h4, _, _⟩ :=
              multistopFinalize_spec _ _ _ _ _ _ (round5_multOf5 _) (round5_multOf5 _) heq
            exact ⟨h1, h2, h3, h4⟩

theorem historicalStopCharge_ge (is_fab : Bool) (pct : ℚ) :
    50 ≤ historicalStopCharge is_fab pct := by
  unfold historicalStopCharge
  split_ifs <;> norm_num

theorem marketVariableStops_ge (is_fab : Bool) (pct : ℚ) :
    201/4 ≤ marketVariableStops is_fab pct := by
  unfold marketVariableStops
  split_ifs <;> norm_num [MULTISTOP_CONFIG]

theorem layoverCharge_nonneg (gm per_day : ℚ) (hpd : 0 ≤ per_day) :
    0 ≤ layoverCharge gm per_day := by
  unfold layoverCharge
  simp only []
  split
  · next hdays =>
    have h1 : (1 : ℤ) ≤ ⌊gm / 500⌋ := Int.le_floor.mpr (by push_cast; linarith)
    have h1q : (1 : ℚ) ≤ (⌊gm / 500⌋ : ℚ) := by exact_mod_cast h1
    nlinarith
  · exact le_refl 0

theorem marketIncreasePerStop_nonneg (is_fab : Bool) (sc : ℤ) :
    0 ≤ marketIncreasePerStop is_fab sc := by
  unfold marketIncreasePerStop
  split
  · next hc =>
    have h5 : (5 : ℤ) ≤ sc := by omega
    have h5q : (5 : ℚ) ≤ (sc : ℚ) := by exact_mod_cast h5
    have := round2_ge ((sc : ℚ) / MULTISTOP_CONFIG.extra_stops_bonus_divisor *
      MULTISTOP_CONFIG.extra_stops_bonus_multiplier_fabuwood)
    have hval : (125 : ℚ) ≤ (sc : ℚ) / MULTISTOP_CONFIG.extra_stops_bonus_divisor *
        MULTISTOP_CONFIG.extra_stops_bonus_multiplier_fabuwood := by
      norm_num [MULTISTOP_CONFIG]
      linarith
    linarith
  · exact le_refl 0

/-- A detected outlier pins down a positive lane median. -/
theorem detectOutlier_some (internal : Option InternalData) (dat : Option DatData)
    (gs : Option GsData) (o : OutlierInfo)
    (h : detectOutlier internal dat gs = some o) :
    ∃ i lm, internal = some i ∧ i.laneMedianRate = some lm ∧ 0 < lm := by
  unfold detectOutlier at h
  cases internal with
  | none => simp at h
  | some i =>
    dsimp only at h
    cases hlm : i.laneMedianRate with
    | none =>
      rw [hlm] at h
      simp at h
    | some lm =>
      rw [hlm] at h
      dsimp only at h
      refine ⟨i, lm, rfl, hlm, ?_⟩
      split at h
      · next hc => exact hc.1
      · simp at h

/-- Rounding to the nearest 5 of anything strictly above `5n + 5/2` gives at
least `5(n+1)`. -/
theorem round5_ge_of_gt (x : ℚ) (n : ℤ) (h : 5 * (n : ℚ) + 5/2 < x) :
    5 * ((n : ℚ) + 1) ≤ round5 x := by
  have hb := round5_ge x
  exact multOf5_step _ n (round5_multOf5 x) (by linarith)

/-- A value above 50 times a factor of at least one half exceeds 25. -/
theorem mul_half_gt_25 (b h : ℚ) (hb : 50 < b) (hh : 1/2 ≤ h) : 25 < b * h := by
  nlinarith

/-- A branch floor of the form round5 (round5 arg * mul) is at least 25
when the raw argument exceeds 25 and the spread factor is at least 19/20. -/
theorem floor25_of_arg (arg mul : ℚ) (harg : 25 < arg) (hm1 : 19/20 ≤ mul) :
    25 ≤ round5 (round5 arg * mul) := by
  have htot : 25 ≤ round5 arg := by
    have hst := round5_ge_of_gt arg 4 (by push_cast; linarith)
    push_cast at hst
    linarith
  have hmul : (25 * (19/20) : ℚ) ≤ round5 arg * mul := by nlinarith
  have hst := round5_ge_of_gt (round5 arg * mul) 4 (by push_cast; linarith)
  push_cast at hst
  linarith

/-- The market-regime floor round5 (round5 S * h) is at least 25 (indeed
50) once the pre-rounding sum S exceeds 100.5 and h is at least one half. -/
theorem market_total_ge_25 (S h : ℚ) (hS : 201/2 < S) (hh : 1/2 ≤ h) :
    25 ≤ round5 (round5 S * h) := by
  have h100 : 100 ≤ round5 S := by
    have hst := round5_ge_of_gt S 19 (by push_cast; linarith)
    push_cast at hst
    linarith
  have hp : (95/2 : ℚ) < round5 S * h := by nlinarith
  have hst := round5_ge_of_gt (round5 S * h) 9 (by push_cast; linarith)
  push_cast at hst
  linarith

/-- The pre-rounding sum of the market regime exceeds 100.5. -/
theorem market_sum_gt (base sv inc lay : ℚ) (hb : 0 < base) (hsv : 201/2 ≤ sv)
    (hi : 0 ≤ inc) (hl : 0 ≤ lay) : 201/2 < base + sv + inc + lay := by
  linarith

/-- At least two stops at the minimum per-stop market charge cost at least
100.5. -/
theorem stops_mul_ge (sc : ℤ) (v : ℚ) (hsc : 2 ≤ sc) (hv : 201/4 ≤ v) :
    201/2 ≤ (sc : ℚ) * v := by
  have h2 : (2 : ℚ) ≤ (sc : ℚ) := by exact_mod_cast hsc
  nlinarith

/-- The historical and outlier base cost exceeds 50. -/
theorem hist_base_gt (lm x c lay : ℚ) (hlm : 0 < lm) (hx : 1 ≤ x) (hc : 50 ≤ c)
    (hl : 0 ≤ lay) : 50 < lm + x * c + lay := by
  nlinarith

/-- Under the orchestrator's calling convention (at least two drop stops
and a hotshot adjustment of at least one half) the multistop floor is at
least 25, so the final guard keeps the spread strict. -/
theorem calc_multistop_strict (google_miles dat_miles : ℚ) (stops_count : ℤ)
    (customer_name : String) (dat : Option DatData) (hotshot_adjustment : ℚ)
    (internal : Option InternalData) (gs : Option GsData) (t m : ℚ)
    (oi : Option OutlierInfo) (hsc : 2 ≤ stops_count)
    (hh : 1/2 ≤ hotshot_adjustment)
    (heq : calculate_multistop_negotiation_range google_miles dat_miles stops_count
      customer_name dat hotshot_adjustment internal gs = (some t, some m, oi)) :
    t < m := by
  have hscq : (1 : ℚ) ≤ (stops_count : ℚ) - 1 := by
    have h2 : (2 : ℚ) ≤ (stops_count : ℚ) := by exact_mod_cast hsc
    linarith
  unfold calculate_multistop_negotiation_range at heq
  simp only [] at heq
  cases hda : datAverage dat with
  | none =>
    rw [hda] at heq
    simp at heq
  | some da =>
    rw [hda] at heq
    dsimp only at heq
    split at heq
    · simp at heq
    · next hda0 =>
      split at heq
      · simp at heq
      · next hmiles =>
        push_neg at hda0
        push_neg at hmiles
        obtain ⟨hdm, hgm⟩ := hmiles
        cases ho : detectOutlier internal dat gs with
        | some o =>
          rw [ho] at heq
          obtain ⟨i, lm, hi, hlm, hlm0⟩ := detectOutlier_some _ _ _ _ ho
          subst hi
          dsimp only at heq
          rw [hlm] at heq
          simp only [Option.getD_some] at heq
          refine multistopFinalize_strict _ _ _ _ _ _ (round5_multOf5 _) ?_ heq
          refine floor25_of_arg _ _ ?_ (by norm_num)
          refine mul_half_gt_25 _ _ ?_ hh
          linarith
        | none =>
          rw [ho] at heq
          dsimp only at heq
          split at heq
          · next hlane =>
            cases internal with
            | none => simp at hlane
            | some i =>
              dsimp only at hlane heq
              cases hlm : i.laneMedianRate with
              | none =>
                rw [hlm] at hlane
                simp at hlane
              | some lm =>
                rw [hlm] at hlane heq
                dsimp only at hlane
                simp only [Bool.and_eq_true, decide_eq_true_eq] at hlane
                obtain ⟨⟨hlm0, hconf⟩, hrec⟩ := hlane
                simp only [Option.getD_some] at heq
                refine multistopFinalize_strict _ _ _ _ _ _ (round5_multOf5 _) ?_ heq
                refine floor25_of_arg _ _ ?_ (by norm_num)
                refine mul_half_gt_25 _ _ ?_ hh
                exact hist_base_gt _ _ _ _ hlm0 hscq (historicalStopCharge_ge _ _)
                  (layoverCharge_nonneg _ _ (by split_ifs <;> norm_num [MULTISTOP_CONFIG]))
          · refine multistopFinalize_strict _ _ _ _ _ _ (round5_multOf5 _) ?_ heq
            by_cases hmd : 0 ≤ google_miles - dat_miles
            · rw [if_pos hmd]
              refine market_total_ge_25 _ _ ?_ hh
              refine market_sum_gt _ _ _ _ ?_
                (stops_mul_ge _ _ hsc (marketVariableStops_ge _ _))
                (marketIncreasePerStop_nonneg _ _)
                (layoverCharge_nonneg _ _ (by split_ifs <;> norm_num [MULTISTOP_CONFIG]))
              exact mul_pos (div_pos (by linarith) hdm) hgm
            · rw [if_neg hmd]
              refine market_total_ge_25 _ _ ?_ hh
              exact market_sum_gt _ _ _ _ (by linarith)
                (stops_mul_ge _ _ hsc (marketVariableStops_ge _ _))
                (marketIncreasePerStop_nonneg _ _)
                (layoverCharge_nonneg _ _ (by split_ifs <;> norm_num [MULTISTOP_CONFIG]))

/-! ## Concrete multistop fixtures and evaluations -/

/-- A DAT payload carrying only a spot forecast total. -/
def datFixture (v : ℚ) : DatData :=
  { rates_mci := some { total_forecastUSD := some v,
                        total_mae_highUSD := none,
                        total_mae_lowUSD := none,
                        companies := none,
                        mileage := none },
    forecast := none }

/-- Internal data with a single lane record and a given lane median. -/
def internalFixture (lm : ℚ) : InternalData :=
  { histConfidence := 0, recordsLane := 1, recordsZip3 := 0, laneMedianRate := some lm,
    bestCarrierAverageRate := none, customerMedianPrice := none,
    customerAveragePrice := none, historicalMarkup := none, historicalMarginPct := none }

/-- The outlier info produced by `internalFixture`/`datFixture` pairs. -/
def outlierFixture (lm mm dev : ℚ) : OutlierInfo :=
  { detected := true, lane_carrier_cost := lm, market_median := mm,
    deviation_pct := dev, records := 1, customer_median_price := none,
    customer_average_price := none, lane_markup := 1.2, lane_margin_pct := 15 }

set_option maxHeartbeats 1000000 in
/-- Evaluation: lane median 20 against market 50 (outlier), one stop,
hotshot 1 returns the degenerate pair (20, 20). -/
theorem multistop_eval_20_20 :
    calculate_multistop_negotiation_range 100 100 1 "" (some (datFixture 50)) 1
      (some (internalFixture 20)) none =
      (some 20, some 20, some (outlierFixture 20 50 60)) := by
  have hdo : detectOutlier (some (internalFixture 20)) (some (datFixture 50)) none =
      some (outlierFixture 20 50 60) := by
    norm_num [detectOutlier, multistopMarketRates, mciRates, gsRates, truthyRate,
      medianOpt, npMedian, sortRats, insertSorted, internalFixture, datFixture,
      outlierFixture]
  have hda : datAverage (some (datFixture 50)) = some 50 := rfl
  unfold calculate_multistop_negotiation_range
  simp only []
  rw [hda]
  dsimp only
  rw [if_neg (by norm_num : ¬(50:ℚ) ≤ 0)]
  rw [if_neg (by norm_num : ¬((100:ℚ) ≤ 0 ∨ (100:ℚ) ≤ 0))]
  rw [hdo]
  dsimp only [internalFixture]
  norm_num [multistopFinalize, round5, rhe, floorQ, Option.getD_some]

set_option maxHeartbeats 1000000 in
/-- Evaluation: lane median 2 against market 10 (outlier), two stops,
hotshot 1: the total is 50, both spread ends round to 50, and the final
guard bumps the ceiling to 55. -/
theorem multistop_eval_50_55 :
    calculate_multistop_negotiation_range 100 100 2 "" (some (datFixture 10)) 1
      (some (internalFixture 2)) none =
      (some 50, some 55, some (outlierFixture 2 10 80)) := by
  have hdo : detectOutlier (some (internalFixture 2)) (some (datFixture 10)) none =
      some (outlierFixture 2 10 80) := by
    norm_num [detectOutlier, multistopMarketRates, mciRates, gsRates, truthyRate,
      medianOpt, npMedian, sortRats, insertSorted, internalFixture, datFixture,
      outlierFixture]
  have hda : datAverage (some (datFixture 10)) = some 10 := rfl
  unfold calculate_multistop_negotiation_range
  simp only []
  rw [hda]
  dsimp only
  rw [if_neg (by norm_num : ¬(10:ℚ) ≤ 0)]
  rw [if_neg (by norm_num : ¬((100:ℚ) ≤ 0 ∨ (100:ℚ) ≤ 0))]
  rw [hdo]
  dsimp only [internalFixture]
  norm_num [multistopFinalize, round5, rhe, floorQ, Option.getD_some]

/-- C4 (amended): with at least one lane record, a positive lane median at
least 30 percent below the positive market-quote median, a positive DAT
forecast total and positive miles (otherwise the null triple is returned),
the outlier regime fires: the returned info has detected = true and
carries the lane median, market median and deviation; the base is the lane
median plus a flat 50 per stop beyond the first with no layover; and after
the hotshot multiplier and rounding the floor is round5 of 0.95 times the
total while the ceiling is round5 of 1.05 times the total unless that
collapses onto the floor, in which case it is bumped to round5 of 1.1
times the floor. -/
theorem C4_outlier_regime (google_miles dat_miles : ℚ) (stops_count : ℤ)
    (customer_name : String) (dat : Option DatData) (hotshot_adjustment : ℚ)
    (i : InternalData) (gs : Option GsData) (lm mm da : ℚ)
    (hlm : i.laneMedianRate = some lm) (hlm0 : 0 < lm) (hrec : 1 ≤ i.recordsLane)
    (hmed : medianOpt ((multistopMarketRates dat gs).filter fun r => decide (0 < r)) =
      some mm)
    (hmm0 : 0 < mm) (hdev : 0.30 ≤ (mm - lm) / mm)
    (hda : datAverage dat = some da) (hda0 : 0 < da) (hdm : 0 < dat_miles)
    (hgm : 0 < google_miles)
    (htot : 5 ≤ round5 ((lm + ((stops_count : ℚ) - 1) * 50) * hotshot_adjustment)) :
    calculate_multistop_negotiation_range google_miles dat_miles stops_count
      customer_name dat hotshot_adjustment (some i) gs =
      (some (round5 (round5 ((lm + ((stops_count : ℚ) - 1) * 50) * hotshot_adjustment)
          * 0.95)),
       some (if round5 (round5 ((lm + ((stops_count : ℚ) - 1) * 50) * hotshot_adjustment)
              * 1.05) ≤
            round5 (round5 ((lm + ((stops_count : ℚ) - 1) * 50) * hotshot_adjustment)
              * 0.95) then
          round5 (round5 (round5 ((lm + ((stops_count : ℚ) - 1) * 50) * hotshot_adjustment)
            * 0.95) * 1.1)
        else
          round5 (round5 ((lm + ((stops_count : ℚ) - 1) * 50) * hotshot_adjustment)
            * 1.05)),
       some { detected := true, lane_carrier_cost := lm, market_median := mm,
              deviation_pct := (mm - lm) / mm * 100, records := i.recordsLane,
              customer_median_price := i.customerMedianPrice,
              customer_average_price := i.customerAveragePrice,
              lane_markup := i.historicalMarkup.getD 1.20,
              lane_margin_pct := i.historicalMarginPct.getD 15.0 }) := by
  have hne : multistopMarketRates dat gs ≠ [] := by
    intro h0
    rw [h0] at hmed
    simp [medianOpt] at hmed
  have hdo : detectOutlier (some i) dat gs =
      some { detected := true, lane_carrier_cost := lm, market_median := mm,
             deviation_pct := (mm - lm) / mm * 100, records := i.recordsLane,
             customer_median_price := i.customerMedianPrice,
             customer_average_price := i.customerAveragePrice,
             lane_markup := i.historicalMarkup.getD 1.20,
             lane_margin_pct := i.historicalMarginPct.getD 15.0 } := by
    unfold detectOutlier
    dsimp only
    rw [hlm]
    dsimp only
    rw [if_pos ⟨hlm0, hrec⟩]
    rw [if_neg hne, hmed]
    dsimp only
    rw [if_pos hmm0, if_pos hdev]
  set T := round5 ((lm + ((stops_count : ℚ) - 1) * 50) * hotshot_adjustment) with hT
  have hfloor : 5 ≤ round5 (T * 0.95) := by
    have hst := round5_ge_of_gt (T * 0.95) 0 (by push_cast; nlinarith)
    push_cast at hst
    linarith
  have hceil : 5 ≤ round5 (T * 1.05) := by
    have hst := round5_ge_of_gt (T * 1.05) 0 (by push_cast; nlinarith)
    push_cast at hst
    linarith
  unfold calculate_multistop_negotiation_range
  simp only []
  rw [hda]
  dsimp only
  rw [if_neg (by linarith : ¬da ≤ 0)]
  rw [if_neg (by push_neg; exact ⟨hdm, hgm⟩ : ¬(dat_miles ≤ 0 ∨ google_miles ≤ 0))]
  rw [hdo]
  dsimp only
  rw [hlm]
  simp only [Option.getD_some]
  rw [← hT]
  unfold multistopFinalize
  simp only []
  rw [if_neg (by push_neg; constructor <;> [linarith; linarith] :
    ¬(round5 (T * 0.95) ≤ 0 ∨ round5 (T * 1.05) ≤ 0))]
  by_cases hc : round5 (T * 1.05) ≤ round5 (T * 0.95)
  · rw [if_pos hc, if_pos hc]
  · rw [if_neg hc, if_neg hc]

/-! ## PRC price validator (`modules/analysis/prc.py`) -/

/-- PRC_CONFIG fields used by the validator. -/
structure PRCConfig where
  min_loads_for_match : ℕ
  minimum_margin_pct : ℚ
  maximum_margin_pct : ℚ
  target_margin_pct : ℚ
  warning_margin_high : ℚ

def PRC_CONFIG : PRCConfig :=
  { min_loads_for_match := 3, minimum_margin_pct := 5, maximum_margin_pct := 35,
    target_margin_pct := 16, warning_margin_high := 30 }

/-- RATING_THRESHOLDS (symmetric deviation bands, max side). -/
structure RatingThresholds where
  excellent : ℚ
  good : ℚ
  acceptable : ℚ
  risky : ℚ

def RATING_THRESHOLDS : RatingThresholds :=
  { excellent := 5, good := 10, acceptable := 15, risky := 25 }

/-- One row of the Unity lookup table as consumed by the customer-margin
helper; cost fields are post-`to_numeric` (None for non-numeric). -/
structure UnityRow where
  companyName : Option String
  status : Option String
  pickupDate : Option ℤ
  carrierFreightCost : Option ℚ
  customerFreightCost : Option ℚ
deriving Repr, DecidableEq

/-- The Unity table snapshot: rows plus which optional columns exist, and
the current day used for the 90-day recency window. -/
structure UnityTable where
  hasStatus : Bool
  hasPickupDate : Bool
  now : ℤ
  rows : List UnityRow
deriving Repr, DecidableEq

/-- Name-match filter (rows whose normalized company name equals the
normalized target; a missing name normalizes to the empty string). -/
def nameFilter (rows : List UnityRow) (target : String) : List UnityRow :=
  rows.filter fun r => decide (normalize_name (r.companyName.getD "") = target)

/-- Status filter, applied only when the Status column exists. -/
def statusFilter (t : UnityTable) (rows : List UnityRow) : List UnityRow :=
  if t.hasStatus then
    rows.filter fun r =>
      decide (r.status = some "Delivered") || decide (r.status = some "Completed")
  else rows

/-- 90-day recency filter, applied only when the PickupDate column exists
(an uncoercible date drops the row). -/
def dateFilter (t : UnityTable) (rows : List UnityRow) : List UnityRow :=
  if t.hasPickupDate then
    rows.filter fun r =>
      match r.pickupDate with
      | some d => decide (t.now - 90 ≤ d)
      | none => false
  else rows

/-- Valid cost/price pairs: both positive and price at least cost. -/
def costFilter (rows : List UnityRow) : List UnityRow :=
  rows.filter fun r =>
    match r.carrierFreightCost, r.customerFreightCost with
    | some cc, some cu => decide (0 < cc) && decide (0 < cu) && decide (cc ≤ cu)
    | _, _ => false

/-- The qualifying loads of a customer: name match, completed status,
last 90 days, valid cost/price pair. -/
def customerQualifyingRows (t : UnityTable) (customer : String) : List UnityRow :=
  costFilter (dateFilter t (statusFilter t (nameFilter t.rows (normalize_name customer))))

/-- Margin percentage of a qualifying row. -/
def rowMarginPct (r : UnityRow) : ℚ :=
  match r.carrierFreightCost, r.customerFreightCost with
  | some cc, some cu => (cu - cc) / cu * 100
  | _, _ => 0

/-- Markup of a qualifying row. -/
def rowMarkup (r : UnityRow) : ℚ :=
  match r.carrierFreightCost, r.customerFreightCost with
  | some cc, some cu => cu / cc
  | _, _ => 0

/-- Arithmetic mean. -/
def meanQ (l : List ℚ) : ℚ := if l.length = 0 then 0 else l.sum / l.length

/-- Customer-margin summary (the sample standard deviation of the Python
dict is omitted: it is not rational-valued and no claim consumes it). -/
structure CustomerMargin where
  total_loads : ℕ
  median_margin_pct : ℚ
  avg_margin_pct : ℚ
  median_markup : ℚ
  avg_markup : ℚ
  min_margin_pct : ℚ
  max_margin_pct : ℚ
deriving Repr, DecidableEq

/-- Embedding of `calculate_customer_historical_margin`: null for a missing
or empty customer name, no name matches, or fewer than 3 qualifying
loads. -/
def calculate_customer_historical_margin (t : UnityTable)
    (customer_name : Option String) : Option CustomerMargin :=
  match customer_name with
  | none => none
  | some c =>
    if c = "" then none
    else
      let cdf0 := nameFilter t.rows (normalize_name c)
      if cdf0 = [] then none
      else
        let cdf := costFilter (dateFilter t (statusFilter t cdf0))
        if cdf.length < 3 then none
        else
          let margins := cdf.map rowMarginPct
          let markups := cdf.map rowMarkup
          some { total_loads := cdf.length,
                 median_margin_pct := npMedian margins,
                 avg_margin_pct := meanQ margins,
                 median_markup := npMedian markups,
                 avg_markup := meanQ markups,
                 min_margin_pct := (sortRats margins).headD 0,
                 max_margin_pct := (sortRats margins).getLastD 0 }

/-- Categorical price rating (PRC produces the first six values; the
orchestrator may additionally produce NEEDS_REVIEW). -/
inductive Rating where
  | EXCELLENT
  | GOOD
  | ACCEPTABLE
  | RISKY
  | POOR
  | NO_DATA
  | NEEDS_REVIEW
deriving Repr, DecidableEq

/-- The LaneHistorical statistics record. In the embedding it is an input
of the validator, standing for the result of `find_lane_historical` (the
three-tier postal lookup over the table, whose internals no claim
consumes). -/
structure LaneHistorical where
  match_level : String
  lane_identifier : String
  customer : String
  avg_markup : ℚ
  median_markup : ℚ
  std_markup : ℚ
  avg_margin_pct : ℚ
  median_margin_pct : ℚ
  std_margin_pct : ℚ
  confidence_score : ℚ
  total_loads : ℕ
  recent_loads : ℕ
  min_markup : ℚ
  max_markup : ℚ
  p25_markup : ℚ
  p75_markup : ℚ
  min_margin_pct : ℚ
  max_margin_pct : ℚ
  p25_margin_pct : ℚ
  p75_margin_pct : ℚ
deriving Repr, DecidableEq

/-- The comparison sub-object of a PRC result. -/
structure PRCComparison where
  markup_diff : ℚ
  markup_diff_pct : ℚ
  margin_diff_pct : ℚ
  within_historical_range : Bool
  within_iqr : Bool
deriving Repr, DecidableEq

/-- A PRC validation result (the free-text recommendation strings are
omitted; the flags keep stable identifying prefixes of the Python
strings). -/
structure PRCResult where
  proposed_markup : ℚ
  proposed_margin_pct : ℚ
  rating : Rating
  confidence_score : ℚ
  industry_suggested_price : Option ℚ
  customer_historical_margin : Option CustomerMargin
  historical : Option LaneHistorical
  comparison : Option PRCComparison
  multistop_outlier : Option OutlierInfo
  flags : List String
deriving Repr, DecidableEq

/-- Suggested price of the hard-ceiling branch when no customer-scoped lane
match exists: customer global margin with at least 5 loads, else the
industry default target margin. -/
def ceilingFallback (t : UnityTable) (customer_name : Option String) (cost : ℚ) :
    Option ℚ × Option CustomerMargin :=
  match calculate_customer_historical_margin t customer_name with
  | some cm =>
    if 5 ≤ cm.total_loads then
      (some (round2 (cost / (1 - cm.median_margin_pct / 100))), some cm)
    else (some (round2 (cost / (1 - PRC_CONFIG.target_margin_pct / 100))), none)
  | none => (some (round2 (cost / (1 - PRC_CONFIG.target_margin_pct / 100))), none)

/-- The no-lane-data tail of the validator (rating stays NO_DATA):
customer global margin with at least 5 loads, else industry default. -/
def noLaneResult (t : UnityTable) (customer_name : Option String) (cost : ℚ)
    (base : PRCResult) (flags0 : List String) : PRCResult :=
  match calculate_customer_historical_margin t customer_name with
  | some cm =>
    if 5 ≤ cm.total_loads then
      { base with
          flags := flags0,
          industry_suggested_price :=
            some (round2 (cost / (1 - cm.median_margin_pct / 100))),
          customer_historical_margin := some cm }
    else
      { base with
          flags := flags0,
          industry_suggested_price :=
            some (round2 (cost / (1 - PRC_CONFIG.target_margin_pct / 100))) }
  | none =>
    { base with
        flags := flags0,
        industry_suggested_price :=
          some (round2 (cost / (1 - PRC_CONFIG.target_margin_pct / 100))) }

/-- Embedding of `validate_customer_pricing`. The `historical` argument is
the result of the three-tier lane lookup; the customer-margin helper is
called on the same table and name as in the source. -/
def validate_customer_pricing (t : UnityTable)
    (proposed_customer_price carrier_cost : ℚ) (customer_name : Option String)
    (historical : Option LaneHistorical) (multistop_outlier : Option OutlierInfo) :
    PRCResult :=
  let proposed_markup := proposed_customer_price / carrier_cost
  let proposed_margin_pct :=
    (proposed_customer_price - carrier_cost) / proposed_customer_price * 100
  let base : PRCResult :=
    { proposed_markup := proposed_markup,
      proposed_margin_pct := proposed_margin_pct,
      rating := Rating.NO_DATA,
      confidence_score := 0,
      industry_suggested_price := none,
      customer_historical_margin := none,
      historical := none,
      comparison := none,
      multistop_outlier := none,
      flags := [] }
  if PRC_CONFIG.maximum_margin_pct < proposed_margin_pct then
    let sug : Option ℚ × Option CustomerMargin :=
      match historical with
      | some h =>
        if h.customer ≠ "" ∧ h.customer ≠ "ALL" then
          (some (round2 (carrier_cost * h.median_markup)), none)
        else ceilingFallback t customer_name carrier_cost
      | none => ceilingFallback t customer_name carrier_cost
    { base with
        rating := Rating.POOR,
        flags := ["margin_above_industry_max"],
        confidence_score := 100,
        industry_suggested_price := sug.1,
        customer_historical_margin := sug.2 }
  else
    let warned : List String :=
      if PRC_CONFIG.warning_margin_high < proposed_margin_pct then
        ["margin_high_warning"]
      else []
    match historical with
    | none =>
      let flags0 := warned ++ ["No historical data found"]
      match multistop_outlier with
      | some oi =>
        if oi.detected then
          { base with
              flags := flags0,
              industry_suggested_price := some (round2 (carrier_cost * oi.lane_markup)),
              multistop_outlier := some oi }
        else noLaneResult t customer_name carrier_cost base flags0
      | none => noLaneResult t customer_name carrier_cost base flags0
    | some h =>
      let sug : Option ℚ × Option CustomerMargin :=
        if h.customer ≠ "" ∧ h.customer ≠ "ALL" then
          (some (round2 (carrier_cost * h.median_markup)), none)
        else
          match calculate_customer_historical_margin t customer_name with
          | some cm =>
            if 5 ≤ cm.total_loads then
              (some (round2 (carrier_cost / (1 - cm.median_margin_pct / 100))), some cm)
            else (some (round2 (carrier_cost * h.median_markup)), none)
          | none => (some (round2 (carrier_cost * h.median_markup)), none)
      let markup_diff := proposed_markup - h.median_markup
      let markup_diff_pct := markup_diff / h.median_markup * 100
      let margin_diff_pct := proposed_margin_pct - h.median_margin_pct
      let within_historical_range :=
        decide (h.min_markup ≤ proposed_markup ∧ proposed_markup ≤ h.max_markup)
      let within_iqr :=
        decide (h.p25_markup ≤ proposed_markup ∧ proposed_markup ≤ h.p75_markup)
      let ratingFlags : Rating × List String :=
        if proposed_margin_pct < PRC_CONFIG.minimum_margin_pct then
          (Rating.POOR, ["margin_below_minimum"])
        else
          if |markup_diff_pct| ≤ RATING_THRESHOLDS.excellent then (Rating.EXCELLENT, [])
          else if |markup_diff_pct| ≤ RATING_THRESHOLDS.good then (Rating.GOOD, [])
          else if |markup_diff_pct| ≤ RATING_THRESHOLDS.acceptable then
            (Rating.ACCEPTABLE, [])
          else if |markup_diff_pct| ≤ RATING_THRESHOLDS.risky then (Rating.RISKY, [])
          else (Rating.POOR, [])
      let tailFlags : List String :=
        (if proposed_markup < h.p25_markup then ["Below 25th percentile"]
         else if h.p75_markup < proposed_markup then ["Above 75th percentile"]
         else []) ++
        (if within_historical_range then [] else ["Outside historical range"]) ++
        (if h.match_level ≠ "exact" then ["Using non-exact match"] else []) ++
        (if h.recent_loads < 3 then ["Limited recent data"] else [])
      { base with
          rating := ratingFlags.1,
          confidence_score := h.confidence_score,
          historical := some h,
          industry_suggested_price := sug.1,
          customer_historical_margin := sug.2,
          comparison := some { markup_diff := markup_diff,
                               markup_diff_pct := markup_diff_pct,
                               margin_diff_pct := margin_diff_pct,
                               within_historical_range := within_historical_range,
                               within_iqr := within_iqr },
          flags := warned ++ ratingFlags.2 ++ tailFlags }

/-! ## Orchestrator combination (`modules/analysis/integrated.py`) -/

/-- Python `int()` truncation toward zero. -/
def truncInt (q : ℚ) : ℤ := if 0 ≤ q then ⌊q⌋ else ⌈q⌉

/-- Combined confidence: 0.6 PRC + 0.4 ID, truncated to an integer. -/
def combined_confidence (prc_conf id_conf : ℚ) : ℤ :=
  truncInt (prc_conf * 0.6 + id_conf * 0.4)

/-- The orchestrator's final-rating logic: margin below the minimum forces
POOR with the below_minimum flag; otherwise the PRC rating, downgraded to
NEEDS_REVIEW (RISKY/POOR at combined confidence below 50) or upgraded to
GOOD (ACCEPTABLE at combined confidence above 80). -/
def orchestrator_final_rating (proposed_price carrier_cost : ℚ)
    (prc_rating : Rating) (combined : ℤ) : Rating × Option String :=
  let proposed_margin_pct := (proposed_price - carrier_cost) / proposed_price * 100
  if proposed_margin_pct < PRC_CONFIG.minimum_margin_pct then
    (Rating.POOR, some "below_minimum")
  else if (prc_rating = Rating.RISKY ∨ prc_rating = Rating.POOR) ∧ combined < 50 then
    (Rating.NEEDS_REVIEW, none)
  else if prc_rating = Rating.ACCEPTABLE ∧ 80 < combined then
    (Rating.GOOD, none)
  else (prc_rating, none)

/-- The result of the hard-ceiling branch, in closed form. -/
theorem validate_ceiling (t : UnityTable) (price cost : ℚ) (cn : Option String)
    (hist : Option LaneHistorical) (outl : Option OutlierInfo)
    (hm : PRC_CONFIG.maximum_margin_pct < (price - cost) / price * 100) :
    validate_customer_pricing t price cost cn hist outl =
      { proposed_markup := price / cost,
        proposed_margin_pct := (price - cost) / price * 100,
        rating := Rating.POOR,
        confidence_score := 100,
        industry_suggested_price :=
          (match hist with
           | some h =>
             if h.customer ≠ "" ∧ h.customer ≠ "ALL" then
               (some (round2 (cost * h.median_markup)), (none : Option CustomerMargin))
             else ceilingFallback t cn cost
           | none => ceilingFallback t cn cost).1,
        customer_historical_margin :=
          (match hist with
           | some h =>
             if h.customer ≠ "" ∧ h.customer ≠ "ALL" then
               (some (round2 (cost * h.median_markup)), (none : Option CustomerMargin))
             else ceilingFallback t cn cost
           | none => ceilingFallback t cn cost).2,
        historical := none,
        comparison := none,
        multistop_outlier := none,
        flags := ["margin_above_industry_max"] } := by
  unfold validate_customer_pricing
  simp only []
  rw [if_pos hm]

/-- The default-margin form of the ceiling fallback when the customer
margin is unavailable or below 5 loads. -/
theorem ceilingFallback_default (t : UnityTable) (cn : Option String) (cost : ℚ)
    (hlt : ∀ cm, calculate_customer_historical_margin t cn = some cm →
      cm.total_loads < 5) :
    ceilingFallback t cn cost =
      (some (round2 (cost / (1 - PRC_CONFIG.target_margin_pct / 100))), none) := by
  unfold ceilingFallback
  cases hcm : calculate_customer_historical_margin t cn with
  | none => rfl
  | some cm =>
    dsimp only
    rw [if_neg (by have := hlt cm hcm; omega)]

/-- The customer-margin form of the ceiling fallback. -/
theorem ceilingFallback_customer (t : UnityTable) (cn : Option String) (cost : ℚ)
    (cm : CustomerMargin) (hcm : calculate_customer_historical_margin t cn = some cm)
    (h5 : 5 ≤ cm.total_loads) :
    ceilingFallback t cn cost =
      (some (round2 (cost / (1 - cm.median_margin_pct / 100))), some cm) := by
  unfold ceilingFallback
  rw [hcm]
  dsimp only
  rw [if_pos h5]

/-- C2: whenever the proposed margin percentage exceeds the configured
industry maximum of 35, the validator immediately rates POOR (no
comparison or historical sub-object, only the ceiling flag) and still
computes the suggested price through the fallback hierarchy: lane+customer
markup when the lane match is customer-scoped, else the customer global
median margin when it rests on at least 5 qualifying loads, else the
industry default target margin of 16 percent. -/
theorem C2_hard_ceiling (t : UnityTable) (price cost : ℚ) (cn : Option String)
    (hist : Option LaneHistorical) (outl : Option OutlierInfo)
    (hp : 0 < price) (hc : 0 < cost)
    (hm : 35 < (price - cost) / price * 100) :
    (validate_customer_pricing t price cost cn hist outl).rating = Rating.POOR ∧
    (validate_customer_pricing t price cost cn hist outl).comparison = none ∧
    (validate_customer_pricing t price cost cn hist outl).historical = none ∧
    (validate_customer_pricing t price cost cn hist outl).flags =
      ["margin_above_industry_max"] ∧
    (∀ h, hist = some h → h.customer ≠ "" → h.customer ≠ "ALL" →
      (validate_customer_pricing t price cost cn hist outl).industry_suggested_price =
        some (round2 (cost * h.median_markup))) ∧
    ((∀ h, hist = some h → h.customer = "" ∨ h.customer = "ALL") →
      ∀ cm, calculate_customer_historical_margin t cn = some cm → 5 ≤ cm.total_loads →
      (validate_customer_pricing t price cost cn hist outl).industry_suggested_price =
        some (round2 (cost / (1 - cm.median_margin_pct / 100)))) ∧
    ((∀ h, hist = some h → h.customer = "" ∨ h.customer = "ALL") →
      (∀ cm, calculate_customer_historical_margin t cn = some cm →
        cm.total_loads < 5) →
      (validate_customer_pricing t price cost cn hist outl).industry_suggested_price =
        some (round2 (cost / (1 - 16 / 100)))) := by
  have hm' : PRC_CONFIG.maximum_margin_pct < (price - cost) / price * 100 := hm
  rw [validate_ceiling t price cost cn hist outl hm']
  refine ⟨rfl, rfl, rfl, rfl, ?_, ?_, ?_⟩
  · intro h hh hc1 hc2
    subst hh
    dsimp only
    rw [if_pos ⟨hc1, hc2⟩]
  · intro hdeg cm hcm h5
    have hfb := ceilingFallback_customer t cn cost cm hcm h5
    cases hist with
    | none =>
      dsimp only
      rw [hfb]
    | some h =>
      dsimp only
      rcases hdeg h rfl with hd | hd
      · rw [if_neg (by intro hcon; exact hcon.1 hd), hfb]
      · rw [if_neg (by intro hcon; exact hcon.2 hd), hfb]
  · intro hdeg hlt
    have hfb := ceilingFallback_default t cn cost hlt
    have h16 : PRC_CONFIG.target_margin_pct = (16 : ℚ) := rfl
    cases hist with
    | none =>
      dsimp only
      rw [hfb, h16]
    | some h =>
      dsimp only
      rcases hdeg h rfl with hd | hd
      · rw [if_neg (by intro hcon; exact hcon.1 hd), hfb, h16]
      · rw [if_neg (by intro hcon; exact hcon.2 hd), hfb, h16]

/-- C10 (implicit): the hard-ceiling branch reports confidence 100 even
with no lane history at all, feeding full PRC confidence into the
orchestrator's combined-confidence formula. -/
theorem C10_ceiling_confidence (t : UnityTable) (price cost : ℚ)
    (cn : Option String) (hist : Option LaneHistorical) (outl : Option OutlierInfo)
    (hp : 0 < price) (hc : 0 < cost)
    (hm : 35 < (price - cost) / price * 100) :
    (validate_customer_pricing t price cost cn hist outl).confidence_score = 100 := by
  have hm' : PRC_CONFIG.maximum_margin_pct < (price - cost) / price * 100 := hm
  rw [validate_ceiling t price cost cn hist outl hm']

/-- The no-lane-data tail never changes the rating. -/
theorem noLaneResult_rating (t : UnityTable) (cn : Option String) (cost : ℚ)
    (base : PRCResult) (flags0 : List String) :
    (noLaneResult t cn cost base flags0).rating = base.rating := by
  unfold noLaneResult
  cases calculate_customer_historical_margin t cn with
  | none => rfl
  | some cm =>
    dsimp only
    split
    · rfl
    · rfl

/-- The no-lane-data tail falls back to the industry default margin when
the customer margin is unavailable or rests on fewer than 5 loads. -/
theorem noLaneResult_default (t : UnityTable) (cn : Option String) (cost : ℚ)
    (base : PRCResult) (flags0 : List String)
    (hlt : ∀ cm, calculate_customer_historical_margin t cn = some cm →
      cm.total_loads < 5) :
    (noLaneResult t cn cost base flags0).industry_suggested_price =
      some (round2 (cost / (1 - PRC_CONFIG.target_margin_pct / 100))) := by
  unfold noLaneResult
  cases hcm : calculate_customer_historical_margin t cn with
  | none => rfl
  | some cm =>
    dsimp only
    rw [if_neg (by have := hlt cm hcm; omega)]

/-- C3 (amended): a proposed margin percentage below the configured
minimum of 5 makes the validator rate POOR whenever lane historical data
was found; with no lane match the early NO_DATA return fires instead, so
the rating is always POOR or NO_DATA and never
EXCELLENT/GOOD/ACCEPTABLE/RISKY. The orchestrator's final rating is
unconditionally POOR with the below_minimum margin flag, overriding the
PRC rating. -/
theorem C3_minimum_margin :
    (∀ (t : UnityTable) (price cost : ℚ) (cn : Option String) (h : LaneHistorical)
      (outl : Option OutlierInfo),
      (price - cost) / price * 100 < 5 →
      (validate_customer_pricing t price cost cn (some h) outl).rating = Rating.POOR) ∧
    (∀ (t : UnityTable) (price cost : ℚ) (cn : Option String)
      (hist : Option LaneHistorical) (outl : Option OutlierInfo),
      (price - cost) / price * 100 < 5 →
      (validate_customer_pricing t price cost cn hist outl).rating = Rating.POOR ∨
      (validate_customer_pricing t price cost cn hist outl).rating = Rating.NO_DATA) ∧
    (∀ (price cost : ℚ) (prc_rating : Rating) (combined : ℤ),
      (price - cost) / price * 100 < 5 →
      orchestrator_final_rating price cost prc_rating combined =
        (Rating.POOR, some "below_minimum")) := by
  have hpoor : ∀ (t : UnityTable) (price cost : ℚ) (cn : Option String)
      (h : LaneHistorical) (outl : Option OutlierInfo),
      (price - cost) / price * 100 < 5 →
      (validate_customer_pricing t price cost cn (some h) outl).rating =
        Rating.POOR := by
    intro t price cost cn h outl hmin
    have hnc : ¬PRC_CONFIG.maximum_margin_pct < (price - cost) / price * 100 := by
      have h35 : PRC_CONFIG.maximum_margin_pct = (35 : ℚ) := rfl
      rw [h35]
      linarith
    unfold validate_customer_pricing
    simp only []
    rw [if_neg hnc]
    dsimp only
    rw [if_pos (by exact hmin : (price - cost) / price * 100 <
      PRC_CONFIG.minimum_margin_pct)]
  refine ⟨hpoor, ?_, ?_⟩
  · intro t price cost cn hist outl hmin
    cases hist with
    | some h => exact Or.inl (hpoor t price cost cn h outl hmin)
    | none =>
      refine Or.inr ?_
      have hnc : ¬PRC_CONFIG.maximum_margin_pct < (price - cost) / price * 100 := by
        have h35 : PRC_CONFIG.maximum_margin_pct = (35 : ℚ) := rfl
        rw [h35]
        linarith
      unfold validate_customer_pricing
      simp only []
      rw [if_neg hnc]
      cases outl with
      | none => rw [noLaneResult_rating]
      | some oi =>
        dsimp only
        by_cases hd : oi.detected = true
        · rw [if_pos hd]
        · rw [if_neg hd, noLaneResult_rating]
  · intro price cost prc_rating combined hmin
    unfold orchestrator_final_rating
    simp only []
    rw [if_pos (by exact hmin : (price - cost) / price * 100 <
      PRC_CONFIG.minimum_margin_pct)]

/-- The empty Unity table. -/
def emptyUnityTable : UnityTable :=
  { hasStatus := false, hasPickupDate := false, now := 1000, rows := [] }

/-- C3 counterexample: a 2 percent margin with no lane match returns
NO_DATA, not POOR, refuting the unconditional half of the claim. -/
theorem C3_counterexample :
    ((100 : ℚ) - 98) / 100 * 100 < 5 ∧
    (validate_customer_pricing emptyUnityTable 100 98 none none none).rating =
      Rating.NO_DATA ∧
    (validate_customer_pricing emptyUnityTable 100 98 none none none).rating ≠
      Rating.POOR := by
  have hval : (validate_customer_pricing emptyUnityTable 100 98 none none none).rating =
      Rating.NO_DATA := by
    unfold validate_customer_pricing
    simp only []
    rw [if_neg (by norm_num [PRC_CONFIG])]
    rw [noLaneResult_rating]
  refine ⟨by norm_num, hval, ?_⟩
  rw [hval]
  intro hcon
  exact Rating.noConfusion hcon

/-- A lane-historical fixture with markup statistics around 1.5. -/
def laneHistFixture : LaneHistorical :=
  { match_level := "exact", lane_identifier := "60160-53703", customer := "Acme",
    avg_markup := 1.5, median_markup := 1.5, std_markup := 0,
    avg_margin_pct := 33, median_margin_pct := 33, std_margin_pct := 0,
    confidence_score := 80, total_loads := 10, recent_loads := 5,
    min_markup := 1.2, max_markup := 1.8, p25_markup := 1.4, p75_markup := 1.6,
    min_margin_pct := 20, max_margin_pct := 45, p25_margin_pct := 28,
    p75_margin_pct := 38 }

/-- C3 witness: at price 100 and cost 98 (2 percent margin) the amended
claim applies: a lane match rates POOR, and the orchestrator overrides to
POOR with the below_minimum flag. -/
theorem C3_witness :
    (validate_customer_pricing emptyUnityTable 100 98 none (some laneHistFixture)
      none).rating = Rating.POOR ∧
    ((validate_customer_pricing emptyUnityTable 100 98 none none none).rating =
        Rating.POOR ∨
      (validate_customer_pricing emptyUnityTable 100 98 none none none).rating =
        Rating.NO_DATA) ∧
    orchestrator_final_rating 100 98 Rating.EXCELLENT 90 =
      (Rating.POOR, some "below_minimum") := by
  refine ⟨?_, ?_, ?_⟩
  · exact C3_minimum_margin.1 emptyUnityTable 100 98 none laneHistFixture none
      (by norm_num)
  · exact C3_minimum_margin.2.1 emptyUnityTable 100 98 none none none (by norm_num)
  · exact C3_minimum_margin.2.2 100 98 Rating.EXCELLENT 90 (by norm_num)

/-- C6 (amended): the customer-margin helper returns null whenever fewer
than 3 qualifying loads match (with 3 or 4 it returns data); callers
additionally require at least 5 loads, so with fewer than 5 qualifying
loads the validator still lands on the industry default margin. -/
theorem C6_customer_margin_threshold :
    (∀ (t : UnityTable) (cn : Option String),
      (customerQualifyingRows t (cn.getD "")).length < 3 →
      calculate_customer_historical_margin t cn = none) ∧
    (∀ (t : UnityTable) (price cost : ℚ) (cn : Option String),
      (∀ cm, calculate_customer_historical_margin t cn = some cm →
        cm.total_loads < 5) →
      (validate_customer_pricing t price cost cn none none).industry_suggested_price =
        some (round2 (cost / (1 - 16 / 100)))) := by
  constructor
  · intro t cn hlen
    cases cn with
    | none => rfl
    | some c =>
      unfold calculate_customer_historical_margin
      simp only []
      by_cases hcempty : c = ""
      · rw [if_pos hcempty]
      · rw [if_neg hcempty]
        by_cases h0 : nameFilter t.rows (normalize_name c) = []
        · rw [if_pos h0]
        · rw [if_neg h0]
          unfold customerQualifyingRows at hlen
          simp only [Option.getD_some] at hlen
          rw [if_pos hlen]
  · intro t price cost cn hlt
    have h16 : PRC_CONFIG.target_margin_pct = (16 : ℚ) := rfl
    unfold validate_customer_pricing
    simp only []
    split
    · dsimp only
      rw [ceilingFallback_default t cn cost hlt, h16]
    · rw [noLaneResult_default t cn cost _ _ hlt, h16]

/-- Three qualifying Acme rows (delivered, recent, valid costs). -/
def acmeRow : UnityRow :=
  { companyName := some "Acme", status := some "Delivered", pickupDate := some 950,
    carrierFreightCost := some 100, customerFreightCost := some 120 }

/-- A table holding exactly three qualifying Acme loads. -/
def threeRowTable : UnityTable :=
  { hasStatus := true, hasPickupDate := true, now := 1000,
    rows := [acmeRow, acmeRow, acmeRow] }

/-- C6 counterexample: exactly 3 qualifying loads (fewer than 5) and the
helper still returns data, refuting the stated 5-load null threshold. -/
theorem C6_counterexample :
    (customerQualifyingRows threeRowTable "Acme").length = 3 ∧
    (calculate_customer_historical_margin threeRowTable (some "Acme")).isSome =
      true := by
  constructor
  · decide
  · decide

/-- C6 witness: with no rows at all the helper is null and the validator
suggests the industry default price. -/
theorem C6_witness :
    calculate_customer_historical_margin emptyUnityTable (some "Acme") = none ∧
    (validate_customer_pricing emptyUnityTable 150 100 (some "Acme") none
      none).industry_suggested_price = some (round2 (100 / (1 - 16 / 100))) := by
  constructor
  · exact C6_customer_margin_threshold.1 emptyUnityTable (some "Acme") (by decide)
  · refine C6_customer_margin_threshold.2 emptyUnityTable 150 100 (some "Acme") ?_
    intro cm hcm
    rw [C6_customer_margin_threshold.1 emptyUnityTable (some "Acme") (by decide)]
      at hcm
    exact Option.noConfusion hcm

/-! ## Claim theorems: hotshot, ranges, witnesses and counterexamples -/

/-- C9: any equipment whose uppercased, space-stripped form contains
HOTSHOT, with a weight strictly between 0 and 10000, maps to the API
equipment FLATBED with the light adjustment multiplier 0.65 and
is_hotshot true. -/
theorem C9_hotshot_light (equipment : String) (weight : ℚ)
    (hcontains : containsChars "HOTSHOT".toList (hotshotNormalizedChars equipment) =
      true)
    (h0 : 0 < weight) (h1 : weight < 10000) :
    handle_hotshot equipment weight = ("FLATBED", 0.65, true) := by
  unfold handle_hotshot
  rw [if_neg (by push_neg; exact ⟨by decide, by linarith⟩)]
  rw [if_neg (by rw [hcontains]; simp)]
  rw [if_neg (by
    have hth : HOTSHOT_CONFIG.weight_threshold = (10000 : ℚ) := rfl
    rw [hth]
    linarith)]
  rfl

/-- C9 witness: the configured scenario equipment HOTSHOT at 6036 pounds. -/
theorem C9_witness : handle_hotshot "HOTSHOT" 6036 = ("FLATBED", 0.65, true) :=
  C9_hotshot_light "HOTSHOT" 6036 (by decide) (by norm_num) (by norm_num)

/-- C2 witness: margin 50 percent with no history at all is rated POOR
immediately and suggested the industry default price. -/
theorem C2_witness :
    (validate_customer_pricing emptyUnityTable 200 100 none none none).rating =
      Rating.POOR ∧
    (validate_customer_pricing emptyUnityTable 200 100 none none none).comparison =
      none ∧
    (validate_customer_pricing emptyUnityTable 200 100 none none
      none).industry_suggested_price = some (round2 (100 / (1 - 16 / 100))) := by
  have hC := C2_hard_ceiling emptyUnityTable 200 100 none none none (by norm_num)
    (by norm_num) (by norm_num)
  refine ⟨hC.1, hC.2.1, ?_⟩
  exact hC.2.2.2.2.2.2 (fun h hh => Option.noConfusion hh)
    (fun cm hcm => Option.noConfusion hcm)

/-- C10 witness: the same no-history ceiling case carries confidence 100. -/
theorem C10_witness :
    (validate_customer_pricing emptyUnityTable 200 100 none none
      none).confidence_score = 100 :=
  C10_ceiling_confidence emptyUnityTable 200 100 none none none (by norm_num)
    (by norm_num) (by norm_num)

/-- C7 witness: a missing DAT payload, and negative market-assumed miles,
each produce the null triple. -/
theorem C7_witness :
    calculate_multistop_negotiation_range 100 100 2 "" none 1 none none =
      (none, none, none) ∧
    calculate_multistop_negotiation_range 100 (-5) 2 "" (some (datFixture 50)) 1
      none none = (none, none, none) := by
  constructor
  · exact C7_null_guard 100 100 2 "" none 1 none none (Or.inl rfl)
  · exact C7_null_guard 100 (-5) 2 "" (some (datFixture 50)) 1 none none
      (Or.inr (Or.inr (Or.inl (by norm_num))))

/-- Internal data matching Scenario B. -/
def strongFixture : InternalData :=
  { histConfidence := 85, recordsLane := 16, recordsZip3 := 0,
    laneMedianRate := some 2000, bestCarrierAverageRate := none,
    customerMedianPrice := none, customerAveragePrice := none,
    historicalMarkup := none, historicalMarginPct := none }

/-- C5 witness: Scenario B on a concrete DAT payload whose pool median is
2100. -/
theorem C5_witness :
    calculate_negotiation_range NEGOTIATION_CONFIG 500 none none 0
      (some (datFixture 2100)) none (some strongFixture) = (2000, 2100) := by
  refine C5_scenarioB NEGOTIATION_CONFIG 500 none none 0 (some (datFixture 2100))
    none strongFixture rfl rfl rfl ?_
  norm_num [datRates, datFixture, mciRates, truthyRate, gsRates, medianOpt,
    npMedian, sortRats, insertSorted]

/-- C1 (amended): every single-stop range consists of exact multiples of 5
with max_buy strictly above target_rate. Every non-null multistop range
consists of exact multiples of 5 with max_buy at least target_rate, and
the inequality is strict under the orchestrator's calling convention (at
least two drop stops and a hotshot adjustment of at least one half) — but
not for every raw input: the final spread guard can return
max_buy = target_rate when the floor is 20 or less. -/
theorem C1_range_invariants :
    (∀ (cfg : NegotiationConfig) (miles : ℚ) (pickup delivery : Option PyDate)
      (nowWeekday : ℕ) (dat : Option DatData) (gs : Option GsData)
      (internal : Option InternalData) (t m : ℚ),
      calculate_negotiation_range cfg miles pickup delivery nowWeekday dat gs
        internal = (t, m) →
      multOf5 t ∧ multOf5 m ∧ t < m) ∧
    (∀ (gm dm : ℚ) (sc : ℤ) (name : String) (dat : Option DatData) (h : ℚ)
      (internal : Option InternalData) (gs : Option GsData) (t m : ℚ)
      (oi : Option OutlierInfo),
      calculate_multistop_negotiation_range gm dm sc name dat h internal gs =
        (some t, some m, oi) →
      multOf5 t ∧ multOf5 m ∧ t ≤ m) ∧
    (∀ (gm dm : ℚ) (sc : ℤ) (name : String) (dat : Option DatData) (h : ℚ)
      (internal : Option InternalData) (gs : Option GsData) (t m : ℚ)
      (oi : Option OutlierInfo),
      2 ≤ sc → 1/2 ≤ h →
      calculate_multistop_negotiation_range gm dm sc name dat h internal gs =
        (some t, some m, oi) →
      t < m) := by
  refine ⟨?_, ?_, ?_⟩
  · intro cfg miles pickup delivery nowWeekday dat gs internal t m heq
    have hinv := calc_neg_range_invariant cfg miles pickup delivery nowWeekday dat
      gs internal
    rw [heq] at hinv
    exact hinv
  · intro gm dm sc name dat h internal gs t m oi heq
    obtain ⟨h1, h2, h3, _⟩ := calc_multistop_invariant gm dm sc name dat h internal
      gs t m oi heq
    exact ⟨h1, h2, h3⟩
  · intro gm dm sc name dat h internal gs t m oi hsc hh heq
    exact calc_multistop_strict gm dm sc name dat h internal gs t m oi hsc hh heq

/-- C1 witness: the single-stop fallback range (250, 290) and the
multistop strict spread 50 < 55 at two stops. -/
theorem C1_witness :
    (multOf5 ((calculate_negotiation_range NEGOTIATION_CONFIG 100 none none 0 none
        none none).1) ∧
      multOf5 ((calculate_negotiation_range NEGOTIATION_CONFIG 100 none none 0 none
        none none).2) ∧
      (calculate_negotiation_range NEGOTIATION_CONFIG 100 none none 0 none none
        none).1 <
        (calculate_negotiation_range NEGOTIATION_CONFIG 100 none none 0 none none
          none).2) ∧
    (50 : ℚ) < 55 := by
  constructor
  · have h := C1_range_invariants.1 NEGOTIATION_CONFIG 100 none none 0 none none
      none 250 290 calc_neg_range_fallback_100
    rw [calc_neg_range_fallback_100]
    exact h
  · exact C1_range_invariants.2.2 100 100 2 "" (some (datFixture 10)) 1
      (some (internalFixture 2)) none 50 55 (some (outlierFixture 2 10 80))
      (by norm_num) (by norm_num) multistop_eval_50_55

/-- C1 counterexample: a non-null multistop pair with
max_buy = target_rate = 20, refuting the strict inequality as stated. -/
theorem C1_counterexample :
    calculate_multistop_negotiation_range 100 100 1 "" (some (datFixture 50)) 1
      (some (internalFixture 20)) none =
      (some 20, some 20, some (outlierFixture 20 50 60)) ∧
    ¬((20 : ℚ) < 20) :=
  ⟨multistop_eval_20_20, by norm_num⟩

/-- C8 (amended): in the market-only regime with at least one market rate
in the pool, the returned spread is at least the configured 100 minimum;
the no-market-data fallback does not enforce this buffer. -/
theorem C8_market_min_spread (miles : ℚ) (pickup delivery : Option PyDate)
    (nowWeekday : ℕ) (dat : Option DatData) (gs : Option GsData)
    (internal : Option InternalData)
    (hreg : usesMarketRegime internal = true)
    (hrates : datRates dat ++ gsRates gs ≠ []) :
    100 ≤ (calculate_negotiation_range NEGOTIATION_CONFIG miles pickup delivery
        nowWeekday dat gs internal).2 -
      (calculate_negotiation_range NEGOTIATION_CONFIG miles pickup delivery
        nowWeekday dat gs internal).1 := by
  unfold calculate_negotiation_range
  simp only []
  cases hlp : laneMedianPos internal with
  | none =>
    dsimp only
    exact negotiationFinalize_gap100 _
      (marketBranch_gap NEGOTIATION_CONFIG miles _ _ dat gs _ _ hrates)
  | some lm =>
    dsimp only
    unfold usesMarketRegime at hreg
    rw [hlp] at hreg
    simp only [Bool.and_eq_true, Bool.not_eq_true', Bool.and_eq_false_iff,
      decide_eq_false_iff_not, decide_eq_true_eq] at hreg
    rw [if_neg (by tauto), if_neg (by tauto), if_neg (by tauto), if_neg (by tauto)]
    exact negotiationFinalize_gap100 _
      (marketBranch_gap NEGOTIATION_CONFIG miles _ _ dat gs _ _ hrates)

/-- C8 witness: a concrete market-only input whose spread is at least 100. -/
theorem C8_witness :
    100 ≤ (calculate_negotiation_range NEGOTIATION_CONFIG 500 none none 0
        (some (datFixture 1000)) none none).2 -
      (calculate_negotiation_range NEGOTIATION_CONFIG 500 none none 0
        (some (datFixture 1000)) none none).1 := by
  refine C8_market_min_spread 500 none none 0 (some (datFixture 1000)) none none
    rfl ?_
  norm_num [datRates, datFixture, mciRates, truthyRate, gsRates]

/-- C8 counterexample: the no-market-data fallback at 100 miles returns
(250, 290), a spread of only 40. -/
theorem C8_counterexample :
    calculate_negotiation_range NEGOTIATION_CONFIG 100 none none 0 none none none =
      (250, 290) ∧
    (290 : ℚ) - 250 < 100 :=
  ⟨calc_neg_range_fallback_100, by norm_num⟩

/-- C4 witness: the outlier regime at lane median 2, market median 10, two
stops reports a detected outlier. -/
theorem C4_witness :
    ((calculate_multistop_negotiation_range 100 100 2 "" (some (datFixture 10)) 1
        (some (internalFixture 2)) none).2.2.map fun o => o.detected) = some true := by
  have h := C4_outlier_regime 100 100 2 "" (some (datFixture 10)) 1
    (internalFixture 2) none 2 10 10 rfl (by norm_num) (by decide)
    (by norm_num [multistopMarketRates, mciRates, truthyRate, gsRates, datFixture,
      medianOpt, npMedian, sortRats, insertSorted])
    (by norm_num) (by norm_num) rfl (by norm_num) (by norm_num) (by norm_num)
    (by norm_num [round5, rhe, floorQ])
  rw [h]
  rfl

/-- C4 counterexample: at total 50 the rounded 0.95/1.05 spread collapses
to (50, 50) and the final guard returns max_buy 55, which differs from the
claimed round5 of 1.05 times the total (50). -/
theorem C4_counterexample :
    round5 ((2 + (((2 : ℤ) : ℚ) - 1) * 50) * 1) = 50 ∧
    round5 (50 * 1.05) = 50 ∧
    (calculate_multistop_negotiation_range 100 100 2 "" (some (datFixture 10)) 1
      (some (internalFixture 2)) none).2.1 = some 55 ∧
    (55 : ℚ) ≠ 50 := by
  refine ⟨by norm_num [round5, rhe, floorQ], by norm_num [round5, rhe, floorQ],
    ?_, by norm_num⟩
  rw [multistop_eval_50_55]

end PricingAgent
